import Mathlib

/-!
Shallow embedding of the token/session subsystem of the honojs-template
repository (TokenService in src/services, together with its Redis-backed
session store, refresh-record store and revocation blacklist).

Modelling conventions:
* Time is measured in whole seconds (Nat).
* A JWT string is modelled as either a signed claim set (payload plus the
  signing secret) or an arbitrary malformed string; string equality of real
  JWTs corresponds to equality of these values.
* The Redis store is a list of keyed entries with absolute expiry times.
  Every Redis command consumes one element of a fault schedule
  (faults : List Bool); a true tick makes that command raise a store error,
  which models an unreachable store.  An empty schedule is a fault-free run.
* Fallible service methods return Except values; methods that the source
  wraps in a catch-all returning null return Option values.
-/

/-- Token type discriminator, source field tokenType : access | refresh. -/
inductive TokenType where
  | access
  | refresh
deriving DecidableEq, Repr

/-- Claim set of a token, source interface TokenPayload: userId, email,
sessionId, tokenType plus the registered claims iat, exp, iss, aud that
jwt.sign adds.  exp is optional exactly as in the source interface. -/
structure TokenPayload where
  userId : String
  email : String
  sessionId : String
  tokenType : TokenType
  iat : Nat
  exp : Option Nat
  iss : String
  aud : String
deriving DecidableEq, Repr

/-- A token string: either a well-formed JWT signed with some secret, or a
string that does not decode as a JWT at all. -/
inductive Token where
  | signed (payload : TokenPayload) (secret : String)
  | malformed (raw : String)
deriving DecidableEq, Repr

def ISSUER : String := "honojs-template"

def AUDIENCE : String := "honojs-template-client"

/-- 15 minutes, source ACCESS_TOKEN_EXPIRY. -/
def ACCESS_TOKEN_EXPIRY : Nat := 15 * 60

/-- 7 days, source REFRESH_TOKEN_EXPIRY. -/
def REFRESH_TOKEN_EXPIRY : Nat := 7 * 24 * 60 * 60

/-- jwt.sign with expiresIn, issuer and audience options. -/
def jwtSign (userId email sessionId : String) (tt : TokenType) (secret : String)
    (now ttl : Nat) : Token :=
  Token.signed
    { userId := userId, email := email, sessionId := sessionId, tokenType := tt
      iat := now, exp := some (now + ttl), iss := ISSUER, aud := AUDIENCE }
    secret

inductive JwtError where
  | expired
  | invalid
deriving DecidableEq, Repr

/-- Audience and issuer claim verification inside jwt.verify; a mismatch is a
JsonWebTokenError, i.e. the same class as a bad signature. -/
def jwtCheckClaims (p : TokenPayload) : Except JwtError TokenPayload :=
  if p.aud ≠ AUDIENCE then .error .invalid
  else if p.iss ≠ ISSUER then .error .invalid
  else .ok p

/-- jwt.verify with issuer and audience options: signature first, then the
exp claim (TokenExpiredError when now has reached exp), then audience and
issuer. -/
def jwtVerify (t : Token) (secret : String) (now : Nat) : Except JwtError TokenPayload :=
  match t with
  | .malformed _ => .error .invalid
  | .signed p s =>
    if s ≠ secret then .error .invalid
    else
      match p.exp with
      | some e => if e ≤ now then .error .expired else jwtCheckClaims p
      | none => jwtCheckClaims p

/-- jwt.decode: reads the claims without checking the signature, null on a
malformed string. -/
def jwtDecode (t : Token) : Option TokenPayload :=
  match t with
  | .signed p _ => some p
  | .malformed _ => none

/-- Session metadata JSON stored under token:sessionId. -/
structure Session where
  userId : String
  email : String
  createdAt : Nat
  lastUsedAt : Nat
deriving DecidableEq, Repr

/-- Redis key layout: refresh:sessionId, token:sessionId, blacklist:token. -/
inductive RKey where
  | refresh (sessionId : String)
  | session (sessionId : String)
  | blacklist (token : Token)
deriving DecidableEq, Repr

/-- Values stored in Redis: a refresh token string, session JSON, or the
blacklist marker "1". -/
inductive RVal where
  | tokenVal (t : Token)
  | sessionVal (s : Session)
  | marker
deriving DecidableEq, Repr

/-- One Redis entry; expireAt none means the key has no TTL. -/
structure Entry where
  key : RKey
  val : RVal
  expireAt : Option Nat
deriving DecidableEq, Repr

/-- An entry answers reads at time now only while unexpired. -/
def Entry.liveAt (e : Entry) (now : Nat) : Bool :=
  match e.expireAt with
  | none => true
  | some t => now < t

/-- Errors raised inside the service: an unreachable store, or a JSON.parse
failure on a stored value. -/
inductive Err where
  | storeUnavailable
  | parseError
deriving DecidableEq, Repr

/-- The Redis state plus a schedule of injected faults, one per command. -/
structure Store where
  entries : List Entry
  faults : List Bool
deriving DecidableEq, Repr

def findEntry (es : List Entry) (k : RKey) : Option Entry :=
  es.find? (fun e => e.key == k)

def Store.find (st : Store) (k : RKey) : Option Entry :=
  findEntry st.entries k

/-- The value a read of key k returns at time now, ignoring faults. -/
def Store.lookupLive (st : Store) (k : RKey) (now : Nat) : Option RVal :=
  match findEntry st.entries k with
  | some e => if e.liveAt now then some e.val else none
  | none => none

/-- Consume one tick of the fault schedule. -/
def Store.tick (st : Store) : Bool × Store :=
  match st.faults with
  | [] => (false, st)
  | b :: rest => (b, { st with faults := rest })

/-- redis.exists. -/
def Store.existsOp (st : Store) (k : RKey) (now : Nat) : Except Err Bool × Store :=
  match st.tick with
  | (true, st1) => (.error .storeUnavailable, st1)
  | (false, st1) => (.ok (st1.lookupLive k now).isSome, st1)

/-- redis.get. -/
def Store.getOp (st : Store) (k : RKey) (now : Nat) : Except Err (Option RVal) × Store :=
  match st.tick with
  | (true, st1) => (.error .storeUnavailable, st1)
  | (false, st1) => (.ok (st1.lookupLive k now), st1)

/-- redis.setex: write the value with an absolute expiry now + ttl,
replacing any previous entry for the key. -/
def Store.setexOp (st : Store) (k : RKey) (ttl : Nat) (v : RVal) (now : Nat) :
    Except Err Unit × Store :=
  match st.tick with
  | (true, st1) => (.error .storeUnavailable, st1)
  | (false, st1) =>
    (.ok (),
     { st1 with
        entries := ⟨k, v, some (now + ttl)⟩ :: st1.entries.filter (fun e => !(e.key == k)) })

/-- redis.del. -/
def Store.delOp (st : Store) (k : RKey) : Except Err Unit × Store :=
  match st.tick with
  | (true, st1) => (.error .storeUnavailable, st1)
  | (false, st1) =>
    (.ok (), { st1 with entries := st1.entries.filter (fun e => !(e.key == k)) })

/-- redis.ttl: -2 when the key is absent (or already expired), -1 when it
exists without a TTL, otherwise the remaining seconds. -/
def Store.ttlOp (st : Store) (k : RKey) (now : Nat) : Except Err Int × Store :=
  match st.tick with
  | (true, st1) => (.error .storeUnavailable, st1)
  | (false, st1) =>
    match findEntry st1.entries k with
    | none => (.ok (-2), st1)
    | some e =>
      match e.expireAt with
      | none => (.ok (-1), st1)
      | some t => if now < t then (.ok ((t : Int) - (now : Int)), st1) else (.ok (-2), st1)

def sessionKeyId : RKey → Option String
  | .session sid => some sid
  | _ => none

/-- redis.keys token:* followed by stripping the prefix: the sessionIds of
all live session rows. -/
def Store.scanSessionIds (st : Store) (now : Nat) : Except Err (List String) × Store :=
  match st.tick with
  | (true, st1) => (.error .storeUnavailable, st1)
  | (false, st1) =>
    (.ok (st1.entries.filterMap (fun e => if e.liveAt now then sessionKeyId e.key else none)),
     st1)

/-- Source type TokenPair. -/
structure TokenPair where
  accessToken : Token
  refreshToken : Token
  accessTokenExpiresAt : Nat
  refreshTokenExpiresAt : Nat
deriving DecidableEq, Repr

/-- TokenService.generateTokenPair: sign both tokens for a fresh sessionId,
then persist the refresh-token string and the session metadata, each with the
7-day TTL.  Store errors propagate to the caller. -/
def generateTokenPair (secret userId email sessionId : String) (now : Nat) (st : Store) :
    Except Err TokenPair × Store :=
  let accessToken := jwtSign userId email sessionId .access secret now ACCESS_TOKEN_EXPIRY
  let refreshToken := jwtSign userId email sessionId .refresh secret now REFRESH_TOKEN_EXPIRY
  match st.setexOp (.refresh sessionId) REFRESH_TOKEN_EXPIRY (.tokenVal refreshToken) now with
  | (.error e, st1) => (.error e, st1)
  | (.ok _, st1) =>
    match st1.setexOp (.session sessionId) REFRESH_TOKEN_EXPIRY
        (.sessionVal ⟨userId, email, now, now⟩) now with
    | (.error e, st2) => (.error e, st2)
    | (.ok _, st2) =>
      (.ok ⟨accessToken, refreshToken, now + ACCESS_TOKEN_EXPIRY, now + REFRESH_TOKEN_EXPIRY⟩,
       st2)

/-- TokenService.updateSessionLastUsed: read the session row, refresh its
lastUsedAt, read the remaining TTL and rewrite the row keeping that TTL
(falling back to the full 7-day window when the row has no TTL).  Every
error is caught and swallowed. -/
def updateSessionLastUsed (sessionId : String) (now : Nat) (st : Store) : Store :=
  match st.getOp (.session sessionId) now with
  | (.error _, st1) => st1
  | (.ok none, st1) => st1
  | (.ok (some (.sessionVal sess)), st1) =>
    match st1.ttlOp (.session sessionId) now with
    | (.error _, st2) => st2
    | (.ok ttl, st2) =>
      (st2.setexOp (.session sessionId) (if ttl > 0 then ttl.toNat else REFRESH_TOKEN_EXPIRY)
        (.sessionVal { sess with lastUsedAt := now }) now).2
  | (.ok (some _), st1) => st1

/-- TokenService.verifyToken: blacklist membership first, then jwt.verify,
then (on success, when the payload carries a sessionId) touch the session;
every failure is caught and becomes null. -/
def verifyToken (secret : String) (token : Token) (now : Nat) (st : Store) :
    Option TokenPayload × Store :=
  match st.existsOp (.blacklist token) now with
  | (.error _, st1) => (none, st1)
  | (.ok true, st1) => (none, st1)
  | (.ok false, st1) =>
    match jwtVerify token secret now with
    | .error _ => (none, st1)
    | .ok payload =>
      if payload.sessionId = "" then (some payload, st1)
      else (some payload, updateSessionLastUsed payload.sessionId now st1)

/-- TokenService.refreshAccessToken: verify the presented token, require
type refresh, compare it with the stored refresh record, then sign a new
access token and touch the session; every failure becomes null. -/
def refreshAccessToken (secret : String) (refreshToken : Token) (now : Nat) (st : Store) :
    Option (Token × Nat) × Store :=
  match verifyToken secret refreshToken now st with
  | (none, st1) => (none, st1)
  | (some payload, st1) =>
    if payload.tokenType ≠ .refresh then (none, st1)
    else
      match st1.getOp (.refresh payload.sessionId) now with
      | (.error _, st2) => (none, st2)
      | (.ok stored, st2) =>
        if stored ≠ some (.tokenVal refreshToken) then (none, st2)
        else
          let accessToken :=
            jwtSign payload.userId payload.email payload.sessionId .access secret now
              ACCESS_TOKEN_EXPIRY
          (some (accessToken, now + ACCESS_TOKEN_EXPIRY),
           updateSessionLastUsed payload.sessionId now st2)

/-- TokenService.revokeToken: decode without verification; when an exp claim
is present and strictly in the future, blacklist the token string for
exactly the remaining seconds; otherwise do nothing.  Store errors
propagate. -/
def revokeToken (token : Token) (now : Nat) (st : Store) : Except Err Unit × Store :=
  match jwtDecode token with
  | none => (.ok (), st)
  | some payload =>
    match payload.exp with
    | none => (.ok (), st)
    | some e =>
      let ttl : Int := (e : Int) - (now : Int)
      if ttl > 0 then
        match st.setexOp (.blacklist token) ttl.toNat .marker now with
        | (.error err, st1) => (.error err, st1)
        | (.ok _, st1) => (.ok (), st1)
      else (.ok (), st)

/-- TokenService.revokeSession: delete the refresh record, then the session
row.  Store errors propagate. -/
def revokeSession (sessionId : String) (st : Store) : Except Err Unit × Store :=
  match st.delOp (.refresh sessionId) with
  | (.error e, st1) => (.error e, st1)
  | (.ok _, st1) =>
    match st1.delOp (.session sessionId) with
    | (.error e, st2) => (.error e, st2)
    | (.ok _, st2) => (.ok (), st2)

/-- Loop body of TokenService.revokeAllUserTokens over the scanned session
keys: re-read each row, parse it, and revoke sessions whose userId
matches.  Parse and store errors propagate. -/
def revokeUserLoop (userId : String) (now : Nat) :
    List String → Store → Except Err Unit × Store
  | [], st => (.ok (), st)
  | sid :: rest, st =>
    match st.getOp (.session sid) now with
    | (.error e, st1) => (.error e, st1)
    | (.ok none, st1) => revokeUserLoop userId now rest st1
    | (.ok (some (.sessionVal sess)), st1) =>
      if sess.userId = userId then
        match revokeSession sid st1 with
        | (.error e, st2) => (.error e, st2)
        | (.ok _, st2) => revokeUserLoop userId now rest st2
      else revokeUserLoop userId now rest st1
    | (.ok (some _), st1) => (.error .parseError, st1)

/-- TokenService.revokeAllUserTokens: scan all session keys, then run the
revocation loop. -/
def revokeAllUserTokens (userId : String) (now : Nat) (st : Store) :
    Except Err Unit × Store :=
  match st.scanSessionIds now with
  | (.error e, st1) => (.error e, st1)
  | (.ok sids, st1) => revokeUserLoop userId now sids st1

/-- Element of the list getUserSessions returns. -/
structure SessionInfo where
  sessionId : String
  createdAt : Nat
  lastUsedAt : Nat
deriving DecidableEq, Repr

/-- Loop body of TokenService.getUserSessions: re-read each scanned session
row and collect those whose userId matches. -/
def getUserSessionsLoop (userId : String) (now : Nat) :
    List String → Store → Except Err (List SessionInfo) × Store
  | [], st => (.ok [], st)
  | sid :: rest, st =>
    match st.getOp (.session sid) now with
    | (.error e, st1) => (.error e, st1)
    | (.ok none, st1) => getUserSessionsLoop userId now rest st1
    | (.ok (some (.sessionVal sess)), st1) =>
      if sess.userId = userId then
        match getUserSessionsLoop userId now rest st1 with
        | (.ok l, st2) => (.ok (⟨sid, sess.createdAt, sess.lastUsedAt⟩ :: l), st2)
        | (.error e, st2) => (.error e, st2)
      else getUserSessionsLoop userId now rest st1
    | (.ok (some _), st1) => (.error .parseError, st1)

/-- TokenService.getUserSessions: scan, loop, and catch every error into an
empty result list. -/
def getUserSessions (userId : String) (now : Nat) (st : Store) :
    List SessionInfo × Store :=
  match st.scanSessionIds now with
  | (.error _, st1) => ([], st1)
  | (.ok sids, st1) =>
    match getUserSessionsLoop userId now sids st1 with
    | (.error _, st2) => ([], st2)
    | (.ok l, st2) => (l, st2)

/-! ### Concrete fixtures used by witnesses and counterexamples -/

def wSecret : String := "secret-key"

/-- Access token signed at time 1000 for session s1; its exp is 1900. -/
def wAccessTok : Token := jwtSign "u1" "a@x.com" "s1" .access wSecret 1000 ACCESS_TOKEN_EXPIRY

/-- Refresh token signed at time 1000 for session s1; its exp is 605800. -/
def wRefreshTok : Token := jwtSign "u1" "a@x.com" "s1" .refresh wSecret 1000 REFRESH_TOKEN_EXPIRY

/-- Claim set of wAccessTok. -/
def wAccessPayload : TokenPayload :=
  { userId := "u1", email := "a@x.com", sessionId := "s1", tokenType := .access
    iat := 1000, exp := some 1900, iss := ISSUER, aud := AUDIENCE }

/-- Claim set of wRefreshTok. -/
def wRefreshPayload : TokenPayload :=
  { userId := "u1", email := "a@x.com", sessionId := "s1", tokenType := .refresh
    iat := 1000, exp := some 605800, iss := ISSUER, aud := AUDIENCE }

/-- Store state right after one fault-free generateTokenPair at time 1000. -/
def wStore : Store := (generateTokenPair wSecret "u1" "a@x.com" "s1" 1000 ⟨[], []⟩).2

/-- wStore with the access token additionally blacklisted. -/
def wStoreB : Store :=
  ⟨⟨RKey.blacklist wAccessTok, RVal.marker, some 1900⟩ :: wStore.entries, []⟩

/-- A signed token whose claim set carries no exp field. -/
def wNoExpTok : Token :=
  Token.signed
    { userId := "u1", email := "a@x.com", sessionId := "s1", tokenType := .access
      iat := 1000, exp := none, iss := ISSUER, aud := AUDIENCE }
    wSecret

/-- wStore with a fault scheduled for the second command: the blacklist
check succeeds and the touch read inside updateSessionLastUsed fails. -/
def wStoreFA : Store := ⟨wStore.entries, [false, true]⟩

/-- wStore with a fault scheduled for the sixth command: everything up to
and including the refresh-record read succeeds and the final touch fails. -/
def wStoreFR : Store := ⟨wStore.entries, [false, false, false, false, false, true]⟩

/-- wStore after revokeSession of session s1. -/
def wStoreRevoked : Store := (revokeSession "s1" wStore).2

/-! ### Basic store lemmas -/

theorem tick_eq (st : Store) :
    st.tick = (st.faults.headD false, ⟨st.entries, st.faults.tail⟩) := by
  cases st with
  | mk es fs => cases fs <;> rfl

theorem lookupLive_entries (st st' : Store) (h : st.entries = st'.entries) (k : RKey)
    (now : Nat) : st.lookupLive k now = st'.lookupLive k now := by
  unfold Store.lookupLive
  rw [h]

theorem existsOp_eq (st : Store) (k : RKey) (now : Nat) :
    st.existsOp k now =
      if st.faults.headD false = true then
        (.error .storeUnavailable, ⟨st.entries, st.faults.tail⟩)
      else
        (.ok (st.lookupLive k now).isSome, ⟨st.entries, st.faults.tail⟩) := by
  unfold Store.existsOp
  rw [tick_eq]
  cases h : st.faults.headD false <;> simp [Store.lookupLive, Store.find]

theorem getOp_eq (st : Store) (k : RKey) (now : Nat) :
    st.getOp k now =
      if st.faults.headD false = true then
        (.error .storeUnavailable, ⟨st.entries, st.faults.tail⟩)
      else
        (.ok (st.lookupLive k now), ⟨st.entries, st.faults.tail⟩) := by
  unfold Store.getOp
  rw [tick_eq]
  cases h : st.faults.headD false <;> simp [Store.lookupLive, Store.find]

theorem setexOp_eq (st : Store) (k : RKey) (ttl : Nat) (v : RVal) (now : Nat) :
    st.setexOp k ttl v now =
      if st.faults.headD false = true then
        (.error .storeUnavailable, ⟨st.entries, st.faults.tail⟩)
      else
        (.ok (),
         ⟨⟨k, v, some (now + ttl)⟩ :: st.entries.filter (fun e => !(e.key == k)),
          st.faults.tail⟩) := by
  unfold Store.setexOp
  rw [tick_eq]
  cases h : st.faults.headD false <;> simp

theorem delOp_eq (st : Store) (k : RKey) :
    st.delOp k =
      if st.faults.headD false = true then
        (.error .storeUnavailable, ⟨st.entries, st.faults.tail⟩)
      else
        (.ok (), ⟨st.entries.filter (fun e => !(e.key == k)), st.faults.tail⟩) := by
  unfold Store.delOp
  rw [tick_eq]
  cases h : st.faults.headD false <;> simp

theorem ttlOp_eq (st : Store) (k : RKey) (now : Nat) :
    st.ttlOp k now =
      if st.faults.headD false = true then
        (.error .storeUnavailable, ⟨st.entries, st.faults.tail⟩)
      else
        (.ok
          (match findEntry st.entries k with
           | none => (-2 : Int)
           | some e =>
             match e.expireAt with
             | none => (-1 : Int)
             | some t => if now < t then ((t : Int) - (now : Int)) else (-2 : Int)),
         ⟨st.entries, st.faults.tail⟩) := by
  unfold Store.ttlOp
  rw [tick_eq]
  cases h : st.faults.headD false
  · cases hf : findEntry st.entries k with
    | none => simp [hf]
    | some e =>
      cases he : e.expireAt with
      | none => simp [hf, he]
      | some t => by_cases hlt : now < t <;> simp [hf, he, hlt]
  · simp

theorem scanSessionIds_eq (st : Store) (now : Nat) :
    st.scanSessionIds now =
      if st.faults.headD false = true then
        (.error .storeUnavailable, ⟨st.entries, st.faults.tail⟩)
      else
        (.ok (st.entries.filterMap (fun e => if e.liveAt now then sessionKeyId e.key else none)),
         ⟨st.entries, st.faults.tail⟩) := by
  unfold Store.scanSessionIds
  rw [tick_eq]
  cases h : st.faults.headD false <;> simp

/-! ### findEntry lemmas -/

theorem findEntry_nil (k : RKey) : findEntry [] k = none := rfl

theorem findEntry_cons_self (e : Entry) (es : List Entry) (k : RKey) (h : e.key = k) :
    findEntry (e :: es) k = some e := by
  simp [findEntry, List.find?_cons, h]

theorem findEntry_cons_ne (e : Entry) (es : List Entry) (k : RKey) (h : e.key ≠ k) :
    findEntry (e :: es) k = findEntry es k := by
  simp [findEntry, List.find?_cons, h]

theorem findEntry_filter_ne (es : List Entry) (k k' : RKey) (h : k ≠ k') :
    findEntry (es.filter (fun e => !(e.key == k'))) k = findEntry es k := by
  induction es with
  | nil => rfl
  | cons e es ih =>
    by_cases hk : e.key = k'
    · rw [List.filter_cons_of_neg (by simp [hk]), findEntry_cons_ne e es k (by rw [hk]; exact fun hh => h hh.symm)]
      exact ih
    · rw [List.filter_cons_of_pos (by simp [hk])]
      by_cases hek : e.key = k
      · rw [findEntry_cons_self _ _ _ hek, findEntry_cons_self _ _ _ hek]
      · rw [findEntry_cons_ne _ _ _ hek, findEntry_cons_ne _ _ _ hek]
        exact ih

theorem findEntry_filter_self (es : List Entry) (k : RKey) :
    findEntry (es.filter (fun e => !(e.key == k))) k = none := by
  induction es with
  | nil => rfl
  | cons e es ih =>
    by_cases hk : e.key = k
    · rw [List.filter_cons_of_neg (by simp [hk])]
      exact ih
    · rw [List.filter_cons_of_pos (by simp [hk]), findEntry_cons_ne _ _ _ hk]
      exact ih

theorem findEntry_mem (es : List Entry) (k : RKey) (e : Entry)
    (h : findEntry es k = some e) : e ∈ es ∧ e.key = k := by
  unfold findEntry at h
  refine ⟨List.mem_of_find?_eq_some h, ?_⟩
  have := List.find?_some h
  simpa using this

theorem findEntry_of_mem_nodup (es : List Entry) (e : Entry)
    (hnd : (es.map (fun x => x.key)).Nodup) (hm : e ∈ es) :
    findEntry es e.key = some e := by
  induction es with
  | nil => cases hm
  | cons e' es ih =>
    rcases List.mem_cons.mp hm with h | h
    · subst h
      exact findEntry_cons_self _ _ _ rfl
    · have hne : e'.key ≠ e.key := by
        intro hk
        have : e.key ∈ es.map (fun x => x.key) := List.mem_map_of_mem _ h
        rw [List.map_cons] at hnd
        exact (List.nodup_cons.mp hnd).1 (hk ▸ this)
      rw [findEntry_cons_ne _ _ _ hne]
      exact ih (List.nodup_cons.mp (by rw [List.map_cons] at hnd; exact hnd)).2 h

/-! ### Operation state lemmas -/

theorem store_find_mk (es : List Entry) (fs : List Bool) (k : RKey) :
    (⟨es, fs⟩ : Store).find k = findEntry es k := rfl

theorem getOp_snd (st : Store) (k : RKey) (now : Nat) :
    (st.getOp k now).2 = ⟨st.entries, st.faults.tail⟩ := by
  rw [getOp_eq]
  by_cases hf : st.faults.headD false = true
  · rw [if_pos hf]
  · rw [if_neg hf]

theorem existsOp_snd (st : Store) (k : RKey) (now : Nat) :
    (st.existsOp k now).2 = ⟨st.entries, st.faults.tail⟩ := by
  rw [existsOp_eq]
  by_cases hf : st.faults.headD false = true
  · rw [if_pos hf]
  · rw [if_neg hf]

theorem ttlOp_snd (st : Store) (k : RKey) (now : Nat) :
    (st.ttlOp k now).2 = ⟨st.entries, st.faults.tail⟩ := by
  rw [ttlOp_eq]
  by_cases hf : st.faults.headD false = true
  · rw [if_pos hf]
  · rw [if_neg hf]

theorem scanSessionIds_snd (st : Store) (now : Nat) :
    (st.scanSessionIds now).2 = ⟨st.entries, st.faults.tail⟩ := by
  rw [scanSessionIds_eq]
  by_cases hf : st.faults.headD false = true
  · rw [if_pos hf]
  · rw [if_neg hf]

theorem setexOp_snd_find_ne (st : Store) (k : RKey) (ttl : Nat) (v : RVal) (now : Nat)
    (k' : RKey) (hk : k' ≠ k) :
    ((st.setexOp k ttl v now).2).find k' = st.find k' := by
  rw [setexOp_eq]
  by_cases hf : st.faults.headD false = true
  · rw [if_pos hf]
    rfl
  · rw [if_neg hf]
    rw [store_find_mk, findEntry_cons_ne _ _ _ (Ne.symm hk),
      findEntry_filter_ne _ _ _ hk]
    rfl

theorem setexOp_snd_faults (st : Store) (k : RKey) (ttl : Nat) (v : RVal) (now : Nat) :
    ((st.setexOp k ttl v now).2).faults = st.faults.tail := by
  rw [setexOp_eq]
  by_cases hf : st.faults.headD false = true
  · rw [if_pos hf]
  · rw [if_neg hf]

theorem delOp_snd_find_ne (st : Store) (k : RKey) (k' : RKey) (hk : k' ≠ k) :
    ((st.delOp k).2).find k' = st.find k' := by
  rw [delOp_eq]
  by_cases hf : st.faults.headD false = true
  · rw [if_pos hf]
    rfl
  · rw [if_neg hf]
    rw [store_find_mk, findEntry_filter_ne _ _ _ hk]
    rfl

theorem delOp_snd_faults (st : Store) (k : RKey) :
    ((st.delOp k).2).faults = st.faults.tail := by
  rw [delOp_eq]
  by_cases hf : st.faults.headD false = true
  · rw [if_pos hf]
  · rw [if_neg hf]

/-! ### Frame lemmas for the touch helper -/

theorem touch_find_ne (sid : String) (now : Nat) (st : Store) (k : RKey)
    (hk : k ≠ RKey.session sid) :
    (updateSessionLastUsed sid now st).find k = st.find k := by
  unfold updateSessionLastUsed
  rcases hg : st.getOp (RKey.session sid) now with ⟨r, st1⟩
  have hst1 : st1 = ⟨st.entries, st.faults.tail⟩ := by
    have h := getOp_snd st (RKey.session sid) now
    rw [hg] at h
    exact h
  have hfind1 : st1.find k = st.find k := by
    rw [hst1]
    rfl
  cases r with
  | error e => exact hfind1
  | ok v =>
    cases v with
    | none => exact hfind1
    | some rv =>
      cases rv with
      | tokenVal t => exact hfind1
      | marker => exact hfind1
      | sessionVal sess =>
        show (match st1.ttlOp (RKey.session sid) now with
          | (Except.error _, st2) => st2
          | (Except.ok ttl, st2) =>
            (st2.setexOp (RKey.session sid)
              (if ttl > 0 then ttl.toNat else REFRESH_TOKEN_EXPIRY)
              (RVal.sessionVal { sess with lastUsedAt := now }) now).2).find k = st.find k
        rcases ht : st1.ttlOp (RKey.session sid) now with ⟨r2, st2⟩
        have hst2 : st2 = ⟨st1.entries, st1.faults.tail⟩ := by
          have h := ttlOp_snd st1 (RKey.session sid) now
          rw [ht] at h
          exact h
        have hfind2 : st2.find k = st.find k := by
          rw [hst2, hst1]
          rfl
        cases r2 with
        | error e => exact hfind2
        | ok ttl => exact (setexOp_snd_find_ne st2 _ _ _ _ k hk).trans hfind2

/-! ### verifyToken characterization lemmas -/

theorem bool_eq_false_of_ne_true {b : Bool} (h : ¬b = true) : b = false := by
  cases b
  · rfl
  · exact absurd rfl h

theorem verifyToken_some_iff (secret : String) (token : Token) (now : Nat) (st : Store)
    (p : TokenPayload) :
    (verifyToken secret token now st).1 = some p ↔
      st.faults.headD false = false ∧ st.lookupLive (RKey.blacklist token) now = none ∧
        jwtVerify token secret now = .ok p := by
  unfold verifyToken
  rcases hg : st.existsOp (RKey.blacklist token) now with ⟨r, st1⟩
  rw [existsOp_eq] at hg
  by_cases hf : st.faults.headD false = true
  · rw [if_pos hf] at hg
    injection hg with h1 h2
    subst h1
    constructor
    · intro h
      exact Option.noConfusion h
    · rintro ⟨h1', -, -⟩
      rw [hf] at h1'
      exact Bool.noConfusion h1'
  · rw [if_neg hf] at hg
    injection hg with h1 h2
    subst h1
    have hf' : st.faults.headD false = false := bool_eq_false_of_ne_true hf
    have hf2 : st.faults.head?.getD false = false := by
      cases hfs : st.faults
      · rfl
      · rw [hfs] at hf'
        exact hf'
    cases hb : st.lookupLive (RKey.blacklist token) now with
    | some v => simp [hf', hf2]
    | none =>
      cases hv : jwtVerify token secret now with
      | error er => simp [hf', hf2]
      | ok q =>
        by_cases hq : q.sessionId = "" <;> simp [hf', hf2, hq]

theorem verifyToken_none_iff (secret : String) (token : Token) (now : Nat) (st : Store) :
    (verifyToken secret token now st).1 = none ↔
      st.faults.headD false = true ∨ (st.lookupLive (RKey.blacklist token) now).isSome = true ∨
        ∃ er, jwtVerify token secret now = .error er := by
  unfold verifyToken
  rcases hg : st.existsOp (RKey.blacklist token) now with ⟨r, st1⟩
  rw [existsOp_eq] at hg
  by_cases hf : st.faults.headD false = true
  · rw [if_pos hf] at hg
    injection hg with h1 h2
    subst h1
    constructor
    · intro _
      exact Or.inl hf
    · intro _
      rfl
  · rw [if_neg hf] at hg
    injection hg with h1 h2
    subst h1
    have hf' : st.faults.headD false = false := bool_eq_false_of_ne_true hf
    have hf2 : st.faults.head?.getD false = false := by
      cases hfs : st.faults
      · rfl
      · rw [hfs] at hf'
        exact hf'
    cases hb : st.lookupLive (RKey.blacklist token) now with
    | some v => simp [hf', hf2]
    | none =>
      cases hv : jwtVerify token secret now with
      | error er => simp [hf', hf2]
      | ok q =>
        by_cases hq : q.sessionId = "" <;> simp [hf', hf2, hq]

theorem verifyToken_snd_of_none (secret : String) (token : Token) (now : Nat) (st : Store)
    (h : (verifyToken secret token now st).1 = none) :
    (verifyToken secret token now st).2 = ⟨st.entries, st.faults.tail⟩ := by
  unfold verifyToken at h ⊢
  rcases hg : st.existsOp (RKey.blacklist token) now with ⟨r, st1⟩
  rw [hg] at h
  have hst1 : st1 = ⟨st.entries, st.faults.tail⟩ := by
    have hh := existsOp_snd st (RKey.blacklist token) now
    rw [hg] at hh
    exact hh
  cases r with
  | error e => exact hst1
  | ok b =>
    cases b with
    | true => exact hst1
    | false =>
      cases hv : jwtVerify token secret now with
      | error er => exact hst1
      | ok q =>
        rw [hv] at h
        have h' : (if q.sessionId = "" then ((some q : Option TokenPayload), st1)
            else (some q, updateSessionLastUsed q.sessionId now st1)).1 = none := h
        by_cases hq : q.sessionId = ""
        · rw [if_pos hq] at h'
          exact Option.noConfusion h'
        · rw [if_neg hq] at h'
          exact Option.noConfusion h'

theorem verifyToken_success_eq (secret : String) (token : Token) (now : Nat) (st : Store)
    (p : TokenPayload) (hf : st.faults.headD false = false)
    (hb : st.lookupLive (RKey.blacklist token) now = none)
    (hv : jwtVerify token secret now = .ok p) (hs : p.sessionId ≠ "") :
    verifyToken secret token now st =
      (some p, updateSessionLastUsed p.sessionId now ⟨st.entries, st.faults.tail⟩) := by
  unfold verifyToken
  rw [existsOp_eq, if_neg (by rw [hf]; exact Bool.false_ne_true)]
  rw [hb, hv]
  show (if p.sessionId = "" then ((some p : Option TokenPayload), ⟨st.entries, st.faults.tail⟩)
      else (some p, updateSessionLastUsed p.sessionId now ⟨st.entries, st.faults.tail⟩)) =
    (some p, updateSessionLastUsed p.sessionId now ⟨st.entries, st.faults.tail⟩)
  rw [if_neg hs]

/-! ### Claim C1 -/

/-- C1: verifyToken is a total function returning a payload or null, and the
result is null exactly when a failure occurred: the store lookup faulted, the
token is on the blacklist, or jwt.verify rejected it (expired, malformed or
bad signature are all jwtVerify errors); the null carries no failure reason.
Moreover any returned payload is exactly the verified claim set. -/
theorem verifyToken_failure_collapse (secret : String) (token : Token) (now : Nat)
    (st : Store) :
    ((verifyToken secret token now st).1 = none ↔
      st.faults.headD false = true ∨
      (st.lookupLive (RKey.blacklist token) now).isSome = true ∨
      ∃ er, jwtVerify token secret now = .error er)
    ∧ (∀ p, (verifyToken secret token now st).1 = some p →
        jwtVerify token secret now = .ok p) := by
  constructor
  · exact verifyToken_none_iff secret token now st
  · intro p hp
    exact ((verifyToken_some_iff secret token now st p).mp hp).2.2

/-- Witness for C1 at concrete inputs: a malformed token yields null, and a
good token yields exactly its claim set. -/
theorem verifyToken_failure_collapse_witness :
    (verifyToken wSecret (Token.malformed "junk") 1000 wStore).1 = none ∧
    jwtVerify wAccessTok wSecret 1500 = .ok wAccessPayload := by
  constructor
  · exact (verifyToken_failure_collapse wSecret (Token.malformed "junk") 1000 wStore).1.mpr
      (Or.inr (Or.inr ⟨JwtError.invalid, rfl⟩))
  · exact (verifyToken_failure_collapse wSecret wAccessTok 1500 wStore).2 wAccessPayload
      (by decide)

/-! ### Claim C2 -/

/-- C2: order of checks in verifyToken.  (1) a blacklisted token is rejected
with no store write, regardless of what signature verification would say;
(2) a returned payload implies the blacklist check passed and jwt.verify
accepted exactly that payload; (3) on any failure the store entries are
untouched (no lastUsedAt update); (4) on success the session is touched via
updateSessionLastUsed. -/
theorem verifyToken_check_order (secret : String) (token : Token) (now : Nat)
    (st : Store) :
    ((st.lookupLive (RKey.blacklist token) now).isSome = true →
      st.faults.headD false = false →
      (verifyToken secret token now st).1 = none ∧
      (verifyToken secret token now st).2.entries = st.entries)
    ∧ (∀ p, (verifyToken secret token now st).1 = some p →
        jwtVerify token secret now = .ok p ∧
        (st.lookupLive (RKey.blacklist token) now).isSome = false)
    ∧ ((verifyToken secret token now st).1 = none →
        (verifyToken secret token now st).2.entries = st.entries)
    ∧ (∀ p, (verifyToken secret token now st).1 = some p → p.sessionId ≠ "" →
        (verifyToken secret token now st).2 =
          updateSessionLastUsed p.sessionId now ⟨st.entries, st.faults.tail⟩) := by
  refine ⟨?_, ?_, ?_, ?_⟩
  · intro hb _
    have hn : (verifyToken secret token now st).1 = none :=
      (verifyToken_none_iff secret token now st).mpr (Or.inr (Or.inl hb))
    exact ⟨hn, by rw [verifyToken_snd_of_none secret token now st hn]⟩
  · intro p hp
    have h := (verifyToken_some_iff secret token now st p).mp hp
    exact ⟨h.2.2, by rw [h.2.1]; rfl⟩
  · intro hn
    rw [verifyToken_snd_of_none secret token now st hn]
  · intro p hp hs
    have h := (verifyToken_some_iff secret token now st p).mp hp
    have he := verifyToken_success_eq secret token now st p h.1 h.2.1 h.2.2 hs
    rw [he]

/-- Witness for C2 at concrete inputs: in the blacklisted store the access
token is rejected without a write even though its signature is valid; in the
clean store the same token succeeds before its exp and the session row is
touched. -/
theorem verifyToken_check_order_witness :
    ((verifyToken wSecret wAccessTok 1500 wStoreB).1 = none ∧
      (verifyToken wSecret wAccessTok 1500 wStoreB).2.entries = wStoreB.entries) ∧
    (jwtVerify wAccessTok wSecret 1500 = .ok wAccessPayload ∧
      (wStore.lookupLive (RKey.blacklist wAccessTok) 1500).isSome = false) ∧
    (verifyToken wSecret wAccessTok 1500 wStore).2 =
      updateSessionLastUsed "s1" 1500 ⟨wStore.entries, []⟩ := by
  refine ⟨?_, ?_, ?_⟩
  · exact (verifyToken_check_order wSecret wAccessTok 1500 wStoreB).1 (by decide) (by decide)
  · exact (verifyToken_check_order wSecret wAccessTok 1500 wStore).2.1 wAccessPayload (by decide)
  · exact (verifyToken_check_order wSecret wAccessTok 1500 wStore).2.2.2 wAccessPayload
      (by decide) (by decide)

/-! ### Claim C9 -/

/-- C9: revokeToken called on a string that does not decode as a JWT, or
whose decoded claims lack exp, completes with ok and leaves the store
untouched — the caller sees the same ok result as for a real revocation. -/
theorem revokeToken_silent_noop (token : Token) (now : Nat) (st : Store)
    (h : jwtDecode token = none ∨ ∃ p, jwtDecode token = some p ∧ p.exp = none) :
    revokeToken token now st = (.ok (), st) := by
  unfold revokeToken
  rcases h with h | ⟨p, hp, he⟩
  · rw [h]
  · rw [hp]
    show (match p.exp with
      | none => ((.ok () : Except Err Unit), st)
      | some e =>
        let ttl : Int := (e : Int) - (now : Int)
        if ttl > 0 then
          match st.setexOp (RKey.blacklist token) ttl.toNat .marker now with
          | (.error err, st1) => (.error err, st1)
          | (.ok _, st1) => (.ok (), st1)
        else (.ok (), st)) = (.ok (), st)
    rw [he]

/-- Witness for C9: a malformed string and a signed token without exp are
both silently ignored. -/
theorem revokeToken_silent_noop_witness :
    revokeToken (Token.malformed "junk") 1000 wStore = (.ok (), wStore) ∧
    revokeToken wNoExpTok 1000 wStore = (.ok (), wStore) := by
  constructor
  · exact revokeToken_silent_noop (Token.malformed "junk") 1000 wStore (Or.inl rfl)
  · exact revokeToken_silent_noop wNoExpTok 1000 wStore (Or.inr ⟨_, rfl, rfl⟩)

/-! ### Claim C6 -/

/-- C6: revokeToken computes the blacklist TTL as the token's exp minus now
and writes an entry only when that is strictly positive; the written entry
expires exactly at the token's own exp (TTL equals the remaining lifetime,
never outliving the token), and revoking an already-expired token changes
nothing. -/
theorem revokeToken_blacklist_ttl (token : Token) (now e : Nat) (st : Store)
    (p : TokenPayload) (hd : jwtDecode token = some p) (he : p.exp = some e)
    (hf : st.faults.headD false = false) :
    (now < e →
      revokeToken token now st =
        (.ok (),
         ⟨⟨RKey.blacklist token, RVal.marker, some e⟩ ::
            st.entries.filter (fun x => !(x.key == RKey.blacklist token)),
          st.faults.tail⟩))
    ∧ (e ≤ now → revokeToken token now st = (.ok (), st)) := by
  have hstep : revokeToken token now st =
      (if ((e : Int) - (now : Int)) > 0 then
        match st.setexOp (RKey.blacklist token) ((e : Int) - (now : Int)).toNat
            RVal.marker now with
        | (.error err, st1) => (.error err, st1)
        | (.ok _, st1) => (.ok (), st1)
      else (.ok (), st)) := by
    unfold revokeToken
    rw [hd]
    show (match p.exp with
      | none => ((.ok () : Except Err Unit), st)
      | some e =>
        let ttl : Int := (e : Int) - (now : Int)
        if ttl > 0 then
          match st.setexOp (RKey.blacklist token) ttl.toNat .marker now with
          | (.error err, st1) => (.error err, st1)
          | (.ok _, st1) => (.ok (), st1)
        else (.ok (), st)) = _
    rw [he]
  constructor
  · intro hlt
    have hpos : ((e : Int) - (now : Int)) > 0 := by omega
    rw [hstep, if_pos hpos]
    rw [setexOp_eq, if_neg (by rw [hf]; exact Bool.false_ne_true)]
    have harith : now + ((e : Int) - (now : Int)).toNat = e := by omega
    show ((.ok () : Except Err Unit),
      (⟨⟨RKey.blacklist token, RVal.marker, some (now + ((e : Int) - (now : Int)).toNat)⟩ ::
          st.entries.filter (fun x => !(x.key == RKey.blacklist token)),
        st.faults.tail⟩ : Store)) = _
    rw [harith]
  · intro hge
    have hneg : ¬(((e : Int) - (now : Int)) > 0) := by omega
    rw [hstep, if_neg hneg]

/-- Witness for C6: revoking the live access token at time 1500 blacklists
it until exactly its exp 1900; revoking it at time 2000 does nothing. -/
theorem revokeToken_blacklist_ttl_witness :
    revokeToken wAccessTok 1500 wStore =
      (.ok (),
       ⟨⟨RKey.blacklist wAccessTok, RVal.marker, some 1900⟩ ::
          wStore.entries.filter (fun x => !(x.key == RKey.blacklist wAccessTok)),
        []⟩) ∧
    revokeToken wAccessTok 2000 wStore = (.ok (), wStore) := by
  constructor
  · exact (revokeToken_blacklist_ttl wAccessTok 1500 1900 wStore wAccessPayload rfl rfl
      (by decide)).1 (by decide)
  · exact (revokeToken_blacklist_ttl wAccessTok 2000 1900 wStore wAccessPayload rfl rfl
      (by decide)).2 (by decide)

/-! ### refreshAccessToken success helper -/

theorem refresh_success_eq (secret : String) (rt : Token) (now : Nat) (st : Store)
    (p : TokenPayload) (hp1 : (verifyToken secret rt now st).1 = some p)
    (ht : p.tokenType = .refresh)
    (hf1 : ((verifyToken secret rt now st).2).faults.headD false = false)
    (hr : ((verifyToken secret rt now st).2).lookupLive (RKey.refresh p.sessionId) now =
      some (.tokenVal rt)) :
    refreshAccessToken secret rt now st =
      (some (jwtSign p.userId p.email p.sessionId .access secret now ACCESS_TOKEN_EXPIRY,
        now + ACCESS_TOKEN_EXPIRY),
       updateSessionLastUsed p.sessionId now
         ⟨((verifyToken secret rt now st).2).entries,
          ((verifyToken secret rt now st).2).faults.tail⟩) := by
  unfold refreshAccessToken
  rcases hvt : verifyToken secret rt now st with ⟨o, st1⟩
  have ho : o = some p := by
    rw [hvt] at hp1
    exact hp1
  subst ho
  have hf1' : st1.faults.headD false = false := by
    rw [hvt] at hf1
    exact hf1
  have hr' : st1.lookupLive (RKey.refresh p.sessionId) now = some (.tokenVal rt) := by
    rw [hvt] at hr
    exact hr
  show (if p.tokenType ≠ TokenType.refresh then ((none : Option (Token × Nat)), st1)
    else match st1.getOp (RKey.refresh p.sessionId) now with
      | (.error _, st2) => (none, st2)
      | (.ok stored, st2) =>
        if stored ≠ some (RVal.tokenVal rt) then (none, st2)
        else (some (jwtSign p.userId p.email p.sessionId .access secret now
                ACCESS_TOKEN_EXPIRY, now + ACCESS_TOKEN_EXPIRY),
              updateSessionLastUsed p.sessionId now st2)) = _
  rw [if_neg (fun hh => hh ht)]
  rw [getOp_eq, if_neg (by rw [hf1']; exact Bool.false_ne_true)]
  rw [hr']
  show (if some (RVal.tokenVal rt) ≠ some (RVal.tokenVal rt) then
      ((none : Option (Token × Nat)), (⟨st1.entries, st1.faults.tail⟩ : Store))
    else (some (jwtSign p.userId p.email p.sessionId .access secret now
            ACCESS_TOKEN_EXPIRY, now + ACCESS_TOKEN_EXPIRY),
          updateSessionLastUsed p.sessionId now ⟨st1.entries, st1.faults.tail⟩)) = _
  rw [if_neg (fun hh => hh rfl)]

theorem refresh_success_fst (secret : String) (rt : Token) (now : Nat) (st : Store)
    (p : TokenPayload) (hp1 : (verifyToken secret rt now st).1 = some p)
    (ht : p.tokenType = .refresh)
    (hf1 : ((verifyToken secret rt now st).2).faults.headD false = false)
    (hr : ((verifyToken secret rt now st).2).lookupLive (RKey.refresh p.sessionId) now =
      some (.tokenVal rt)) :
    (refreshAccessToken secret rt now st).1 =
      some (jwtSign p.userId p.email p.sessionId .access secret now ACCESS_TOKEN_EXPIRY,
        now + ACCESS_TOKEN_EXPIRY) := by
  rw [refresh_success_eq secret rt now st p hp1 ht hf1 hr]

/-! ### Claim C10 -/

/-- C10: a failure inside updateSessionLastUsed is swallowed.  (1) verifyToken
returns the payload whenever the blacklist check and jwt.verify succeed, with
no condition on the session row or on faults scheduled for the touch
commands; (2) refreshAccessToken returns the new access token whenever
verification, the type check and the stored-record comparison succeed, again
with no condition on the trailing touch commands. -/
theorem touch_failure_swallowed (secret : String) (now : Nat) :
    (∀ (token : Token) (st : Store) (p : TokenPayload),
      st.faults.headD false = false →
      st.lookupLive (RKey.blacklist token) now = none →
      jwtVerify token secret now = .ok p →
      (verifyToken secret token now st).1 = some p)
    ∧ (∀ (rt : Token) (st : Store) (p : TokenPayload),
      (verifyToken secret rt now st).1 = some p →
      p.tokenType = .refresh →
      ((verifyToken secret rt now st).2).faults.headD false = false →
      ((verifyToken secret rt now st).2).lookupLive (RKey.refresh p.sessionId) now =
        some (.tokenVal rt) →
      (refreshAccessToken secret rt now st).1 =
        some (jwtSign p.userId p.email p.sessionId .access secret now ACCESS_TOKEN_EXPIRY,
          now + ACCESS_TOKEN_EXPIRY)) := by
  constructor
  · intro token st p hf hb hv
    exact (verifyToken_some_iff secret token now st p).mpr ⟨hf, hb, hv⟩
  · intro rt st p hp1 ht hf1 hr
    exact refresh_success_fst secret rt now st p hp1 ht hf1 hr

/-- Witness for C10: with a fault injected exactly at the touch command,
verifyToken still returns the payload; with a fault injected at the final
touch of the refresh flow, refreshAccessToken still returns the new access
token. -/
theorem touch_failure_swallowed_witness :
    (verifyToken wSecret wAccessTok 1500 wStoreFA).1 = some wAccessPayload ∧
    (refreshAccessToken wSecret wRefreshTok 1500 wStoreFR).1 =
      some (jwtSign "u1" "a@x.com" "s1" .access wSecret 1500 ACCESS_TOKEN_EXPIRY,
        1500 + ACCESS_TOKEN_EXPIRY) := by
  constructor
  · exact (touch_failure_swallowed wSecret 1500).1 wAccessTok wStoreFA wAccessPayload
      (by decide) (by decide) rfl
  · exact (touch_failure_swallowed wSecret 1500).2 wRefreshTok wStoreFR wRefreshPayload
      (by decide) (by decide) (by decide) (by decide)

/-! ### Fault-free operation lemmas (definitional) -/

theorem existsOp_nil (es : List Entry) (k : RKey) (now : Nat) :
    Store.existsOp ⟨es, []⟩ k now =
      (.ok (Store.lookupLive ⟨es, []⟩ k now).isSome, ⟨es, []⟩) := rfl

theorem getOp_nil (es : List Entry) (k : RKey) (now : Nat) :
    Store.getOp ⟨es, []⟩ k now = (.ok (Store.lookupLive ⟨es, []⟩ k now), ⟨es, []⟩) := rfl

theorem setexOp_nil (es : List Entry) (k : RKey) (ttl : Nat) (v : RVal) (now : Nat) :
    Store.setexOp ⟨es, []⟩ k ttl v now =
      (.ok (), ⟨⟨k, v, some (now + ttl)⟩ :: es.filter (fun e => !(e.key == k)), []⟩) := rfl

theorem delOp_nil (es : List Entry) (k : RKey) :
    Store.delOp ⟨es, []⟩ k = (.ok (), ⟨es.filter (fun e => !(e.key == k)), []⟩) := rfl

theorem ttlOp_nil (es : List Entry) (k : RKey) (now : Nat) :
    Store.ttlOp ⟨es, []⟩ k now =
      (.ok
        (match findEntry es k with
         | none => (-2 : Int)
         | some e =>
           match e.expireAt with
           | none => (-1 : Int)
           | some t => if now < t then ((t : Int) - (now : Int)) else (-2 : Int)),
       ⟨es, []⟩) := by
  unfold Store.ttlOp
  show (match findEntry es k with
    | none => ((.ok (-2) : Except Err Int), (⟨es, []⟩ : Store))
    | some e =>
      match e.expireAt with
      | none => (.ok (-1), ⟨es, []⟩)
      | some t =>
        if now < t then (.ok ((t : Int) - (now : Int)), ⟨es, []⟩)
        else (.ok (-2), ⟨es, []⟩)) = _
  cases hf : findEntry es k with
  | none => rfl
  | some e =>
    obtain ⟨ek, ev, eAt⟩ := e
    cases eAt with
    | none => rfl
    | some t => by_cases hlt : now < t <;> simp [hlt]

theorem scanSessionIds_nil (es : List Entry) (now : Nat) :
    Store.scanSessionIds ⟨es, []⟩ now =
      (.ok (es.filterMap (fun e => if e.liveAt now then sessionKeyId e.key else none)),
       ⟨es, []⟩) := rfl

/-! ### Touch helper specification lemmas -/

theorem touch_spec_live (sid : String) (now : Nat) (st : Store) (sess : Session) (t : Nat)
    (hf : st.faults = [])
    (hfind : st.find (RKey.session sid) = some ⟨RKey.session sid, .sessionVal sess, some t⟩)
    (hlive : now < t) :
    updateSessionLastUsed sid now st =
      ⟨⟨RKey.session sid, .sessionVal { sess with lastUsedAt := now }, some t⟩ ::
        st.entries.filter (fun e => !(e.key == RKey.session sid)), []⟩ := by
  obtain ⟨es, fs⟩ := st
  subst hf
  have hfind' : findEntry es (RKey.session sid) =
      some ⟨RKey.session sid, .sessionVal sess, some t⟩ := hfind
  have hll : Store.lookupLive ⟨es, []⟩ (RKey.session sid) now = some (.sessionVal sess) := by
    unfold Store.lookupLive
    rw [show (⟨es, []⟩ : Store).entries = es from rfl, hfind']
    simp [Entry.liveAt, hlive]
  unfold updateSessionLastUsed
  rw [getOp_nil, hll]
  show (match Store.ttlOp ⟨es, []⟩ (RKey.session sid) now with
    | (.error _, st2) => st2
    | (.ok ttl, st2) =>
      (st2.setexOp (RKey.session sid) (if ttl > 0 then ttl.toNat else REFRESH_TOKEN_EXPIRY)
        (.sessionVal { sess with lastUsedAt := now }) now).2) = _
  rw [ttlOp_nil, hfind']
  show (Store.setexOp ⟨es, []⟩ (RKey.session sid)
      (if (if now < t then ((t : Int) - (now : Int)) else -2) > 0 then
        (if now < t then ((t : Int) - (now : Int)) else -2).toNat
      else REFRESH_TOKEN_EXPIRY)
      (.sessionVal { sess with lastUsedAt := now }) now).2 = _
  rw [if_pos hlive]
  rw [if_pos (show ((t : Int) - (now : Int)) > 0 by omega)]
  rw [setexOp_nil]
  have harith : now + ((t : Int) - (now : Int)).toNat = t := by omega
  show (⟨⟨RKey.session sid, .sessionVal { sess with lastUsedAt := now },
      some (now + ((t : Int) - (now : Int)).toNat)⟩ ::
      es.filter (fun e => !(e.key == RKey.session sid)), []⟩ : Store) = _
  rw [harith]

theorem touch_spec_nottl (sid : String) (now : Nat) (st : Store) (sess : Session)
    (hf : st.faults = [])
    (hfind : st.find (RKey.session sid) = some ⟨RKey.session sid, .sessionVal sess, none⟩) :
    updateSessionLastUsed sid now st =
      ⟨⟨RKey.session sid, .sessionVal { sess with lastUsedAt := now },
          some (now + REFRESH_TOKEN_EXPIRY)⟩ ::
        st.entries.filter (fun e => !(e.key == RKey.session sid)), []⟩ := by
  obtain ⟨es, fs⟩ := st
  subst hf
  have hfind' : findEntry es (RKey.session sid) =
      some ⟨RKey.session sid, .sessionVal sess, none⟩ := hfind
  have hll : Store.lookupLive ⟨es, []⟩ (RKey.session sid) now = some (.sessionVal sess) := by
    unfold Store.lookupLive
    rw [show (⟨es, []⟩ : Store).entries = es from rfl, hfind']
    simp [Entry.liveAt]
  unfold updateSessionLastUsed
  rw [getOp_nil, hll]
  show (match Store.ttlOp ⟨es, []⟩ (RKey.session sid) now with
    | (.error _, st2) => st2
    | (.ok ttl, st2) =>
      (st2.setexOp (RKey.session sid) (if ttl > 0 then ttl.toNat else REFRESH_TOKEN_EXPIRY)
        (.sessionVal { sess with lastUsedAt := now }) now).2) = _
  rw [ttlOp_nil, hfind']
  show (Store.setexOp ⟨es, []⟩ (RKey.session sid)
      (if (-1 : Int) > 0 then (-1 : Int).toNat else REFRESH_TOKEN_EXPIRY)
      (.sessionVal { sess with lastUsedAt := now }) now).2 = _
  rw [if_neg (by omega)]
  rw [setexOp_nil]

/-! ### Claim C3 (corrected) -/

/-- C3 counterexample: at time 1500 the session row of wStore has 604300
seconds left (absolute expiry 605800).  verifyToken succeeds and rewrites the
row, but the rewritten row still expires at 605800 — not at
1500 + REFRESH_TOKEN_EXPIRY = 606300 as a reset to the full 7-day window
would give.  So the claim that the TTL is reset to the full window is false. -/
theorem touch_ttl_not_reset_counterexample :
    (verifyToken wSecret wAccessTok 1500 wStore).1 = some wAccessPayload ∧
    ((verifyToken wSecret wAccessTok 1500 wStore).2).find (RKey.session "s1") =
      some ⟨RKey.session "s1", .sessionVal ⟨"u1", "a@x.com", 1000, 1500⟩, some 605800⟩ ∧
    (some 605800 : Option Nat) ≠ some (1500 + REFRESH_TOKEN_EXPIRY) := by
  refine ⟨by decide, by decide, by decide⟩

/-- C3 amended: on every successful verifyToken or refreshAccessToken the
session row (when still present) is rewritten with a refreshed lastUsedAt,
and its TTL is preserved at the remaining time — the absolute expiry is
unchanged; the full 7-day window is used only when the row had no TTL at
all.  Stated for the touch helper with a live TTL, the touch helper with no
TTL, and for the rows left by successful verifyToken and refreshAccessToken
runs. -/
theorem session_touch_preserves_remaining_ttl :
    (∀ (sid : String) (now : Nat) (st : Store) (sess : Session) (t : Nat),
      st.faults = [] →
      st.find (RKey.session sid) = some ⟨RKey.session sid, .sessionVal sess, some t⟩ →
      now < t →
      updateSessionLastUsed sid now st =
        ⟨⟨RKey.session sid, .sessionVal { sess with lastUsedAt := now }, some t⟩ ::
          st.entries.filter (fun e => !(e.key == RKey.session sid)), []⟩)
    ∧ (∀ (sid : String) (now : Nat) (st : Store) (sess : Session),
      st.faults = [] →
      st.find (RKey.session sid) = some ⟨RKey.session sid, .sessionVal sess, none⟩ →
      updateSessionLastUsed sid now st =
        ⟨⟨RKey.session sid, .sessionVal { sess with lastUsedAt := now },
            some (now + REFRESH_TOKEN_EXPIRY)⟩ ::
          st.entries.filter (fun e => !(e.key == RKey.session sid)), []⟩)
    ∧ (∀ (secret : String) (token : Token) (now : Nat) (st : Store) (p : TokenPayload)
        (sess : Session) (t : Nat),
      st.faults = [] →
      (verifyToken secret token now st).1 = some p →
      p.sessionId ≠ "" →
      st.find (RKey.session p.sessionId) =
        some ⟨RKey.session p.sessionId, .sessionVal sess, some t⟩ →
      now < t →
      ((verifyToken secret token now st).2).find (RKey.session p.sessionId) =
        some ⟨RKey.session p.sessionId, .sessionVal { sess with lastUsedAt := now }, some t⟩)
    ∧ (∀ (secret : String) (rt : Token) (now : Nat) (st : Store) (p : TokenPayload)
        (sess : Session) (t : Nat),
      st.faults = [] →
      (verifyToken secret rt now st).1 = some p →
      p.tokenType = .refresh →
      p.sessionId ≠ "" →
      ((verifyToken secret rt now st).2).lookupLive (RKey.refresh p.sessionId) now =
        some (.tokenVal rt) →
      st.find (RKey.session p.sessionId) =
        some ⟨RKey.session p.sessionId, .sessionVal sess, some t⟩ →
      now < t →
      ((refreshAccessToken secret rt now st).2).find (RKey.session p.sessionId) =
        some ⟨RKey.session p.sessionId, .sessionVal { sess with lastUsedAt := now },
          some t⟩) := by
  refine ⟨touch_spec_live, touch_spec_nottl, ?_, ?_⟩
  · intro secret token now st p sess t hf hp1 hs hfind hlive
    obtain ⟨es, fs⟩ := st
    subst hf
    have h := (verifyToken_some_iff secret token now ⟨es, []⟩ p).mp hp1
    have he := verifyToken_success_eq secret token now ⟨es, []⟩ p h.1 h.2.1 h.2.2 hs
    have htouch := touch_spec_live p.sessionId now ⟨es, []⟩ sess t rfl hfind hlive
    have hsnd : (verifyToken secret token now ⟨es, []⟩).2 =
        ⟨⟨RKey.session p.sessionId, .sessionVal { sess with lastUsedAt := now }, some t⟩ ::
          es.filter (fun e2 => !(e2.key == RKey.session p.sessionId)), []⟩ := by
      rw [he]
      exact htouch
    rw [hsnd]
    exact findEntry_cons_self _ _ _ rfl
  · intro secret rt now st p sess t hf hp1 htt hs hr hfind hlive
    obtain ⟨es, fs⟩ := st
    subst hf
    have h := (verifyToken_some_iff secret rt now ⟨es, []⟩ p).mp hp1
    have he := verifyToken_success_eq secret rt now ⟨es, []⟩ p h.1 h.2.1 h.2.2 hs
    have htouch := touch_spec_live p.sessionId now ⟨es, []⟩ sess t rfl hfind hlive
    have hsnd : (verifyToken secret rt now ⟨es, []⟩).2 =
        ⟨⟨RKey.session p.sessionId, .sessionVal { sess with lastUsedAt := now }, some t⟩ ::
          es.filter (fun e2 => !(e2.key == RKey.session p.sessionId)), []⟩ := by
      rw [he]
      exact htouch
    have hf1 : ((verifyToken secret rt now ⟨es, []⟩).2).faults.headD false = false := by
      rw [hsnd]
      rfl
    have hreq := refresh_success_eq secret rt now ⟨es, []⟩ p hp1 htt hf1 hr
    have htouch2 := touch_spec_live p.sessionId now
      ⟨⟨RKey.session p.sessionId, .sessionVal { sess with lastUsedAt := now }, some t⟩ ::
        es.filter (fun e2 => !(e2.key == RKey.session p.sessionId)), []⟩
      { sess with lastUsedAt := now } t rfl (findEntry_cons_self _ _ _ rfl) hlive
    have hsnd2 : (refreshAccessToken secret rt now ⟨es, []⟩).2 =
        updateSessionLastUsed p.sessionId now
          ⟨((verifyToken secret rt now ⟨es, []⟩).2).entries,
           ((verifyToken secret rt now ⟨es, []⟩).2).faults.tail⟩ := by
      rw [hreq]
    rw [hsnd2, hsnd]
    show (updateSessionLastUsed p.sessionId now
      ⟨⟨RKey.session p.sessionId, .sessionVal { sess with lastUsedAt := now }, some t⟩ ::
        es.filter (fun e2 => !(e2.key == RKey.session p.sessionId)), []⟩).find
      (RKey.session p.sessionId) = _
    rw [htouch2]
    exact findEntry_cons_self _ _ _ rfl

/-- Witness for the amended C3 at concrete inputs: the touch keeps the
absolute expiry 605800 while refreshing lastUsedAt to the request time, for
the helper itself and through verifyToken and refreshAccessToken. -/
theorem session_touch_preserves_remaining_ttl_witness :
    updateSessionLastUsed "s1" 1500 wStore =
      ⟨⟨RKey.session "s1", .sessionVal ⟨"u1", "a@x.com", 1000, 1500⟩, some 605800⟩ ::
        wStore.entries.filter (fun e => !(e.key == RKey.session "s1")), []⟩ ∧
    ((verifyToken wSecret wAccessTok 1500 wStore).2).find (RKey.session "s1") =
      some ⟨RKey.session "s1", .sessionVal ⟨"u1", "a@x.com", 1000, 1500⟩, some 605800⟩ ∧
    ((refreshAccessToken wSecret wRefreshTok 1500 wStore).2).find (RKey.session "s1") =
      some ⟨RKey.session "s1", .sessionVal ⟨"u1", "a@x.com", 1000, 1500⟩, some 605800⟩ := by
  refine ⟨?_, ?_, ?_⟩
  · exact session_touch_preserves_remaining_ttl.1 "s1" 1500 wStore
      ⟨"u1", "a@x.com", 1000, 1000⟩ 605800 (by decide) (by decide) (by decide)
  · exact session_touch_preserves_remaining_ttl.2.2.1 wSecret wAccessTok 1500 wStore
      wAccessPayload ⟨"u1", "a@x.com", 1000, 1000⟩ 605800 (by decide) (by decide)
      (by decide) (by decide) (by decide)
  · exact session_touch_preserves_remaining_ttl.2.2.2 wSecret wRefreshTok 1500 wStore
      wRefreshPayload ⟨"u1", "a@x.com", 1000, 1000⟩ 605800 (by decide) (by decide)
      (by decide) (by decide) (by decide) (by decide) (by decide)

/-! ### verifyToken frame lemmas -/

theorem verifyToken_success_eq_noSid (secret : String) (token : Token) (now : Nat)
    (st : Store) (p : TokenPayload) (hf : st.faults.headD false = false)
    (hb : st.lookupLive (RKey.blacklist token) now = none)
    (hv : jwtVerify token secret now = .ok p) (hs : p.sessionId = "") :
    verifyToken secret token now st = (some p, ⟨st.entries, st.faults.tail⟩) := by
  unfold verifyToken
  rw [existsOp_eq, if_neg (by rw [hf]; exact Bool.false_ne_true)]
  rw [hb, hv]
  show (if p.sessionId = "" then ((some p : Option TokenPayload), ⟨st.entries, st.faults.tail⟩)
      else (some p, updateSessionLastUsed p.sessionId now ⟨st.entries, st.faults.tail⟩)) =
    (some p, ⟨st.entries, st.faults.tail⟩)
  rw [if_pos hs]

theorem verifyToken_find_frame (secret : String) (token : Token) (now : Nat) (st : Store)
    (k : RKey) (hk : ∀ sid, k ≠ RKey.session sid) :
    ((verifyToken secret token now st).2).find k = st.find k := by
  cases ho : (verifyToken secret token now st).1 with
  | none =>
    rw [verifyToken_snd_of_none secret token now st ho]
    rfl
  | some p =>
    obtain ⟨hf, hb, hv⟩ := (verifyToken_some_iff secret token now st p).mp ho
    by_cases hs : p.sessionId = ""
    · rw [verifyToken_success_eq_noSid secret token now st p hf hb hv hs]
      rfl
    · rw [verifyToken_success_eq secret token now st p hf hb hv hs]
      show (updateSessionLastUsed p.sessionId now ⟨st.entries, st.faults.tail⟩).find k =
        st.find k
      rw [touch_find_ne _ _ _ _ (hk p.sessionId)]
      rfl

/-! ### refreshAccessToken inversion helper -/

theorem refresh_some_inv (secret : String) (rt : Token) (now : Nat) (st : Store)
    (r : Token × Nat) (hsome : (refreshAccessToken secret rt now st).1 = some r) :
    ∃ p, (verifyToken secret rt now st).1 = some p ∧ p.tokenType = .refresh ∧
      ((verifyToken secret rt now st).2).lookupLive (RKey.refresh p.sessionId) now =
        some (.tokenVal rt) ∧
      r = (jwtSign p.userId p.email p.sessionId .access secret now ACCESS_TOKEN_EXPIRY,
        now + ACCESS_TOKEN_EXPIRY) ∧
      (refreshAccessToken secret rt now st).2 =
        updateSessionLastUsed p.sessionId now
          ⟨((verifyToken secret rt now st).2).entries,
           ((verifyToken secret rt now st).2).faults.tail⟩ := by
  unfold refreshAccessToken at hsome ⊢
  rcases hvt : verifyToken secret rt now st with ⟨o, st1⟩
  rw [hvt] at hsome
  cases o with
  | none => exact Option.noConfusion hsome
  | some p =>
    have hred : (if p.tokenType ≠ TokenType.refresh then ((none : Option (Token × Nat)), st1)
      else match st1.getOp (RKey.refresh p.sessionId) now with
        | (.error _, st2) => (none, st2)
        | (.ok stored, st2) =>
          if stored ≠ some (RVal.tokenVal rt) then (none, st2)
          else (some (jwtSign p.userId p.email p.sessionId .access secret now
                  ACCESS_TOKEN_EXPIRY, now + ACCESS_TOKEN_EXPIRY),
                updateSessionLastUsed p.sessionId now st2)).1 = some r := hsome
    by_cases htt : p.tokenType = TokenType.refresh
    case neg =>
      rw [if_pos htt] at hred
      exact Option.noConfusion hred
    case pos =>
      rw [if_neg (fun hh => hh htt)] at hred
      rcases hgo : st1.getOp (RKey.refresh p.sessionId) now with ⟨g, st2⟩
      rw [hgo] at hred
      have hst2 : st2 = ⟨st1.entries, st1.faults.tail⟩ := by
        have hh := getOp_snd st1 (RKey.refresh p.sessionId) now
        rw [hgo] at hh
        exact hh
      cases g with
      | error e => exact Option.noConfusion hred
      | ok stored =>
        have hred2 : (if stored ≠ some (RVal.tokenVal rt) then
            ((none : Option (Token × Nat)), st2)
          else (some (jwtSign p.userId p.email p.sessionId .access secret now
                  ACCESS_TOKEN_EXPIRY, now + ACCESS_TOKEN_EXPIRY),
                updateSessionLastUsed p.sessionId now st2)).1 = some r := hred
        by_cases hm : stored = some (RVal.tokenVal rt)
        case neg =>
          rw [if_pos hm] at hred2
          exact Option.noConfusion hred2
        case pos =>
          rw [if_neg (fun hh => hh hm)] at hred2
          have hval : r = (jwtSign p.userId p.email p.sessionId .access secret now
              ACCESS_TOKEN_EXPIRY, now + ACCESS_TOKEN_EXPIRY) :=
            (Option.some.inj hred2).symm
          have hfg : st1.faults.headD false = false ∧
              stored = st1.lookupLive (RKey.refresh p.sessionId) now := by
            rw [getOp_eq] at hgo
            by_cases hf1 : st1.faults.headD false = true
            · rw [if_pos hf1] at hgo
              injection hgo with h1 h2
              exact Except.noConfusion h1
            · rw [if_neg hf1] at hgo
              injection hgo with h1 h2
              exact ⟨bool_eq_false_of_ne_true hf1, (Except.ok.inj h1).symm⟩
          refine ⟨p, rfl, htt, ?_, hval, ?_⟩
          · show st1.lookupLive (RKey.refresh p.sessionId) now = some (.tokenVal rt)
            rw [← hfg.2]
            exact hm
          · show (match (some p, st1) with
              | (none, st1) => ((none : Option (Token × Nat)), st1)
              | (some payload, st1) =>
                if payload.tokenType ≠ TokenType.refresh then (none, st1)
                else match st1.getOp (RKey.refresh payload.sessionId) now with
                  | (.error _, st2) => (none, st2)
                  | (.ok stored, st2) =>
                    if stored ≠ some (RVal.tokenVal rt) then (none, st2)
                    else (some (jwtSign payload.userId payload.email payload.sessionId
                            .access secret now ACCESS_TOKEN_EXPIRY,
                            now + ACCESS_TOKEN_EXPIRY),
                          updateSessionLastUsed payload.sessionId now st2)).2 =
              updateSessionLastUsed p.sessionId now ⟨st1.entries, st1.faults.tail⟩
            show (if p.tokenType ≠ TokenType.refresh then ((none : Option (Token × Nat)), st1)
              else match st1.getOp (RKey.refresh p.sessionId) now with
                | (.error _, st2) => (none, st2)
                | (.ok stored, st2) =>
                  if stored ≠ some (RVal.tokenVal rt) then (none, st2)
                  else (some (jwtSign p.userId p.email p.sessionId .access secret now
                          ACCESS_TOKEN_EXPIRY, now + ACCESS_TOKEN_EXPIRY),
                        updateSessionLastUsed p.sessionId now st2)).2 =
              updateSessionLastUsed p.sessionId now ⟨st1.entries, st1.faults.tail⟩
            rw [if_neg (fun hh => hh htt), hgo]
            show (if stored ≠ some (RVal.tokenVal rt) then
                ((none : Option (Token × Nat)), st2)
              else (some (jwtSign p.userId p.email p.sessionId .access secret now
                      ACCESS_TOKEN_EXPIRY, now + ACCESS_TOKEN_EXPIRY),
                    updateSessionLastUsed p.sessionId now st2)).2 =
              updateSessionLastUsed p.sessionId now ⟨st1.entries, st1.faults.tail⟩
            rw [if_neg (fun hh => hh hm), hst2]

/-! ### Claim C4 -/

/-- C4: refreshAccessToken returns null unless the presented token verifies,
has tokenType refresh, and equals the stored RefreshRecord string for its
sessionId; on success it returns only a freshly signed access token (expiry
now + 15 min) and the stored refresh record for that session is left
unchanged — no rotation.  The second conjunct is the converse: those three
conditions suffice for success. -/
theorem refreshAccessToken_spec (secret : String) (rt : Token) (now : Nat) (st : Store) :
    (∀ r, (refreshAccessToken secret rt now st).1 = some r →
      ∃ p, (verifyToken secret rt now st).1 = some p ∧ p.tokenType = .refresh ∧
        ((verifyToken secret rt now st).2).lookupLive (RKey.refresh p.sessionId) now =
          some (.tokenVal rt) ∧
        r = (jwtSign p.userId p.email p.sessionId .access secret now ACCESS_TOKEN_EXPIRY,
          now + ACCESS_TOKEN_EXPIRY) ∧
        ((refreshAccessToken secret rt now st).2).find (RKey.refresh p.sessionId) =
          st.find (RKey.refresh p.sessionId))
    ∧ (∀ p, (verifyToken secret rt now st).1 = some p → p.tokenType = .refresh →
        ((verifyToken secret rt now st).2).faults.headD false = false →
        ((verifyToken secret rt now st).2).lookupLive (RKey.refresh p.sessionId) now =
          some (.tokenVal rt) →
        (refreshAccessToken secret rt now st).1 =
          some (jwtSign p.userId p.email p.sessionId .access secret now ACCESS_TOKEN_EXPIRY,
            now + ACCESS_TOKEN_EXPIRY)) := by
  constructor
  · intro r hsome
    obtain ⟨p, h1, h2, h3, h4, h5⟩ := refresh_some_inv secret rt now st r hsome
    refine ⟨p, h1, h2, h3, h4, ?_⟩
    rw [h5]
    rw [touch_find_ne _ _ _ _ (fun hh => RKey.noConfusion hh)]
    show ((verifyToken secret rt now st).2).find (RKey.refresh p.sessionId) =
      st.find (RKey.refresh p.sessionId)
    exact verifyToken_find_frame secret rt now st _ (fun sid hh => RKey.noConfusion hh)
  · intro p hp1 htt hf1 hr
    exact refresh_success_fst secret rt now st p hp1 htt hf1 hr

/-- Witness for C4 at concrete inputs: refreshing with the stored refresh
token of session s1 at time 1500 succeeds, the returned token is a fresh
access token, and the stored refresh record is unchanged. -/
theorem refreshAccessToken_spec_witness :
    (∃ p, (verifyToken wSecret wRefreshTok 1500 wStore).1 = some p ∧
      p.tokenType = .refresh ∧
      ((verifyToken wSecret wRefreshTok 1500 wStore).2).lookupLive
        (RKey.refresh p.sessionId) 1500 = some (.tokenVal wRefreshTok) ∧
      (jwtSign "u1" "a@x.com" "s1" .access wSecret 1500 ACCESS_TOKEN_EXPIRY,
        1500 + ACCESS_TOKEN_EXPIRY) =
        (jwtSign p.userId p.email p.sessionId .access wSecret 1500 ACCESS_TOKEN_EXPIRY,
          1500 + ACCESS_TOKEN_EXPIRY) ∧
      ((refreshAccessToken wSecret wRefreshTok 1500 wStore).2).find
        (RKey.refresh p.sessionId) = wStore.find (RKey.refresh p.sessionId)) ∧
    (refreshAccessToken wSecret wRefreshTok 1500 wStore).1 =
      some (jwtSign "u1" "a@x.com" "s1" .access wSecret 1500 ACCESS_TOKEN_EXPIRY,
        1500 + ACCESS_TOKEN_EXPIRY) := by
  constructor
  · exact (refreshAccessToken_spec wSecret wRefreshTok 1500 wStore).1
      (jwtSign "u1" "a@x.com" "s1" .access wSecret 1500 ACCESS_TOKEN_EXPIRY,
        1500 + ACCESS_TOKEN_EXPIRY) (by decide)
  · exact (refreshAccessToken_spec wSecret wRefreshTok 1500 wStore).2 wRefreshPayload
      (by decide) (by decide) (by decide) (by decide)

/-! ### jwt round-trip helper -/

theorem jwtVerify_sign (userId email sessionId : String) (tt : TokenType) (secret : String)
    (now ttl : Nat) (h : 0 < ttl) :
    jwtVerify (jwtSign userId email sessionId tt secret now ttl) secret now =
      .ok ⟨userId, email, sessionId, tt, now, some (now + ttl), ISSUER, AUDIENCE⟩ := by
  unfold jwtSign jwtVerify
  show (if secret ≠ secret then (.error .invalid : Except JwtError TokenPayload)
    else
      match (some (now + ttl) : Option Nat) with
      | some e =>
        if e ≤ now then .error .expired
        else jwtCheckClaims ⟨userId, email, sessionId, tt, now, some (now + ttl),
          ISSUER, AUDIENCE⟩
      | none => jwtCheckClaims ⟨userId, email, sessionId, tt, now, some (now + ttl),
          ISSUER, AUDIENCE⟩) = _
  rw [if_neg (fun hh => hh rfl)]
  show (if now + ttl ≤ now then (.error .expired : Except JwtError TokenPayload)
    else jwtCheckClaims ⟨userId, email, sessionId, tt, now, some (now + ttl),
      ISSUER, AUDIENCE⟩) = _
  rw [if_neg (by omega)]
  unfold jwtCheckClaims
  rw [if_neg (fun hh => hh rfl), if_neg (fun hh => hh rfl)]

theorem lookupLive_eq_of_findEntry (es es' : List Entry) (fs fs' : List Bool) (k : RKey)
    (now : Nat) (h : findEntry es k = findEntry es' k) :
    Store.lookupLive ⟨es, fs⟩ k now = Store.lookupLive ⟨es', fs'⟩ k now := by
  unfold Store.lookupLive
  rw [show (⟨es, fs⟩ : Store).entries = es from rfl,
    show (⟨es', fs'⟩ : Store).entries = es' from rfl, h]

/-! ### Claim C7 -/

/-- C7: a fault-free generateTokenPair signs an access and a refresh token
over the same fresh sessionId, persists the refresh-token string and the
session metadata with the 7-day TTL, and both tokens verify (against the
resulting store, as long as they are not already blacklisted) to payloads
carrying the signed userId, email and sessionId with tokenType access and
refresh respectively — in particular both verified payloads carry the same
sessionId. -/
theorem generateTokenPair_roundtrip (secret userId email sessionId : String) (now : Nat)
    (st : Store) (hf : st.faults = [])
    (hb1 : st.lookupLive (RKey.blacklist
      (jwtSign userId email sessionId .access secret now ACCESS_TOKEN_EXPIRY)) now = none)
    (hb2 : st.lookupLive (RKey.blacklist
      (jwtSign userId email sessionId .refresh secret now REFRESH_TOKEN_EXPIRY)) now = none) :
    (generateTokenPair secret userId email sessionId now st).1 =
      .ok ⟨jwtSign userId email sessionId .access secret now ACCESS_TOKEN_EXPIRY,
           jwtSign userId email sessionId .refresh secret now REFRESH_TOKEN_EXPIRY,
           now + ACCESS_TOKEN_EXPIRY, now + REFRESH_TOKEN_EXPIRY⟩ ∧
    ((generateTokenPair secret userId email sessionId now st).2).find
        (RKey.refresh sessionId) =
      some ⟨RKey.refresh sessionId,
        .tokenVal (jwtSign userId email sessionId .refresh secret now REFRESH_TOKEN_EXPIRY),
        some (now + REFRESH_TOKEN_EXPIRY)⟩ ∧
    ((generateTokenPair secret userId email sessionId now st).2).find
        (RKey.session sessionId) =
      some ⟨RKey.session sessionId, .sessionVal ⟨userId, email, now, now⟩,
        some (now + REFRESH_TOKEN_EXPIRY)⟩ ∧
    (verifyToken secret (jwtSign userId email sessionId .access secret now
        ACCESS_TOKEN_EXPIRY) now
      ((generateTokenPair secret userId email sessionId now st).2)).1 =
      some ⟨userId, email, sessionId, .access, now, some (now + ACCESS_TOKEN_EXPIRY),
        ISSUER, AUDIENCE⟩ ∧
    (verifyToken secret (jwtSign userId email sessionId .refresh secret now
        REFRESH_TOKEN_EXPIRY) now
      ((generateTokenPair secret userId email sessionId now st).2)).1 =
      some ⟨userId, email, sessionId, .refresh, now, some (now + REFRESH_TOKEN_EXPIRY),
        ISSUER, AUDIENCE⟩ := by
  obtain ⟨es, fs⟩ := st
  subst hf
  have hgen : generateTokenPair secret userId email sessionId now ⟨es, []⟩ =
      (.ok ⟨jwtSign userId email sessionId .access secret now ACCESS_TOKEN_EXPIRY,
            jwtSign userId email sessionId .refresh secret now REFRESH_TOKEN_EXPIRY,
            now + ACCESS_TOKEN_EXPIRY, now + REFRESH_TOKEN_EXPIRY⟩,
       ⟨⟨RKey.session sessionId, .sessionVal ⟨userId, email, now, now⟩,
           some (now + REFRESH_TOKEN_EXPIRY)⟩ ::
         (⟨RKey.refresh sessionId,
             .tokenVal (jwtSign userId email sessionId .refresh secret now
               REFRESH_TOKEN_EXPIRY),
             some (now + REFRESH_TOKEN_EXPIRY)⟩ ::
           es.filter (fun e => !(e.key == RKey.refresh sessionId))).filter
             (fun e => !(e.key == RKey.session sessionId)), []⟩) := rfl
  have hsnd := congrArg Prod.snd hgen
  have hfb1 : findEntry
      ((⟨RKey.session sessionId, .sessionVal ⟨userId, email, now, now⟩,
          some (now + REFRESH_TOKEN_EXPIRY)⟩ : Entry) ::
        (⟨RKey.refresh sessionId,
            .tokenVal (jwtSign userId email sessionId .refresh secret now
              REFRESH_TOKEN_EXPIRY),
            some (now + REFRESH_TOKEN_EXPIRY)⟩ ::
          es.filter (fun e => !(e.key == RKey.refresh sessionId))).filter
            (fun e => !(e.key == RKey.session sessionId)))
      (RKey.blacklist (jwtSign userId email sessionId .access secret now
        ACCESS_TOKEN_EXPIRY)) =
      findEntry es (RKey.blacklist (jwtSign userId email sessionId .access secret now
        ACCESS_TOKEN_EXPIRY)) := by
    rw [findEntry_cons_ne _ _ _ (fun hh => RKey.noConfusion hh),
        findEntry_filter_ne _ _ _ (fun hh => RKey.noConfusion hh),
        findEntry_cons_ne _ _ _ (fun hh => RKey.noConfusion hh),
        findEntry_filter_ne _ _ _ (fun hh => RKey.noConfusion hh)]
  have hfb2 : findEntry
      ((⟨RKey.session sessionId, .sessionVal ⟨userId, email, now, now⟩,
          some (now + REFRESH_TOKEN_EXPIRY)⟩ : Entry) ::
        (⟨RKey.refresh sessionId,
            .tokenVal (jwtSign userId email sessionId .refresh secret now
              REFRESH_TOKEN_EXPIRY),
            some (now + REFRESH_TOKEN_EXPIRY)⟩ ::
          es.filter (fun e => !(e.key == RKey.refresh sessionId))).filter
            (fun e => !(e.key == RKey.session sessionId)))
      (RKey.blacklist (jwtSign userId email sessionId .refresh secret now
        REFRESH_TOKEN_EXPIRY)) =
      findEntry es (RKey.blacklist (jwtSign userId email sessionId .refresh secret now
        REFRESH_TOKEN_EXPIRY)) := by
    rw [findEntry_cons_ne _ _ _ (fun hh => RKey.noConfusion hh),
        findEntry_filter_ne _ _ _ (fun hh => RKey.noConfusion hh),
        findEntry_cons_ne _ _ _ (fun hh => RKey.noConfusion hh),
        findEntry_filter_ne _ _ _ (fun hh => RKey.noConfusion hh)]
  refine ⟨congrArg Prod.fst hgen, ?_, ?_, ?_, ?_⟩
  · rw [hsnd]
    show findEntry _ (RKey.refresh sessionId) = _
    rw [findEntry_cons_ne _ _ _ (fun hh => RKey.noConfusion hh),
        findEntry_filter_ne _ _ _ (fun hh => RKey.noConfusion hh)]
    exact findEntry_cons_self _ _ _ rfl
  · rw [hsnd]
    exact findEntry_cons_self _ _ _ rfl
  · apply (verifyToken_some_iff _ _ _ _ _).mpr
    refine ⟨?_, ?_, ?_⟩
    · rw [hsnd]
      rfl
    · rw [hsnd]
      rw [lookupLive_eq_of_findEntry _ _ _ [] _ _ hfb1]
      exact hb1
    · exact jwtVerify_sign userId email sessionId .access secret now ACCESS_TOKEN_EXPIRY
        (by decide)
  · apply (verifyToken_some_iff _ _ _ _ _).mpr
    refine ⟨?_, ?_, ?_⟩
    · rw [hsnd]
      rfl
    · rw [hsnd]
      rw [lookupLive_eq_of_findEntry _ _ _ [] _ _ hfb2]
      exact hb2
    · exact jwtVerify_sign userId email sessionId .refresh secret now REFRESH_TOKEN_EXPIRY
        (by decide)

/-- Witness for C7 at concrete inputs: the pair generated for user u1 at
time 1000 verifies on both sides to payloads sharing sessionId s1, with the
refresh record and session row persisted until 605800. -/
theorem generateTokenPair_roundtrip_witness :
    (generateTokenPair wSecret "u1" "a@x.com" "s1" 1000 ⟨[], []⟩).1 =
      .ok ⟨wAccessTok, wRefreshTok, 1900, 605800⟩ ∧
    wStore.find (RKey.refresh "s1") =
      some ⟨RKey.refresh "s1", .tokenVal wRefreshTok, some 605800⟩ ∧
    wStore.find (RKey.session "s1") =
      some ⟨RKey.session "s1", .sessionVal ⟨"u1", "a@x.com", 1000, 1000⟩, some 605800⟩ ∧
    (verifyToken wSecret wAccessTok 1000 wStore).1 = some wAccessPayload ∧
    (verifyToken wSecret wRefreshTok 1000 wStore).1 = some wRefreshPayload := by
  exact generateTokenPair_roundtrip wSecret "u1" "a@x.com" "s1" 1000 ⟨[], []⟩ rfl rfl rfl

/-! ### Claim C5 (corrected) -/

theorem lookupLive_none_of_find_none (st : Store) (k : RKey) (now : Nat)
    (h : st.find k = none) : st.lookupLive k now = none := by
  unfold Store.lookupLive
  rw [show findEntry st.entries k = none from h]

/-- C5 counterexample: revokeSession deletes only the refresh record and the
session row, and verifyToken never consults the refresh record — so after
revokeSession of s1, verifyToken still returns the refresh token's payload
(which is not null), contradicting the claim that verification of the
revoked session's refresh token returns null. -/
theorem revokeSession_refresh_still_verifies_counterexample :
    (revokeSession "s1" wStore).1 = .ok () ∧
    (verifyToken wSecret wRefreshTok 2000 (revokeSession "s1" wStore).2).1 =
      some wRefreshPayload ∧
    some wRefreshPayload ≠ (none : Option TokenPayload) := by
  refine ⟨rfl, by decide, by decide⟩

/-- C5 amended: revokeSession deletes exactly the RefreshRecord key and the
Session key for that sessionId, writes no blacklist entry (all other keys
are untouched), and afterwards refreshAccessToken with any token naming that
session returns null because the stored record is gone — but verifyToken
itself still accepts every valid non-blacklisted token of that session,
access or refresh, until its own exp. -/
theorem revokeSession_spec (sessionId : String) (st : Store) (hf : st.faults = []) :
    (revokeSession sessionId st).1 = .ok () ∧
    ((revokeSession sessionId st).2).find (RKey.refresh sessionId) = none ∧
    ((revokeSession sessionId st).2).find (RKey.session sessionId) = none ∧
    (∀ k, k ≠ RKey.refresh sessionId → k ≠ RKey.session sessionId →
      ((revokeSession sessionId st).2).find k = st.find k) ∧
    (∀ (secret : String) (rt : Token) (now : Nat),
      (∀ p, jwtVerify rt secret now = .ok p → p.sessionId = sessionId) →
      (refreshAccessToken secret rt now ((revokeSession sessionId st).2)).1 = none) ∧
    (∀ (secret : String) (tok : Token) (now : Nat) (p : TokenPayload),
      st.lookupLive (RKey.blacklist tok) now = none →
      jwtVerify tok secret now = .ok p →
      (verifyToken secret tok now ((revokeSession sessionId st).2)).1 = some p) := by
  obtain ⟨es, fs⟩ := st
  subst hf
  have hrev : revokeSession sessionId ⟨es, []⟩ =
      (.ok (), ⟨(es.filter (fun e => !(e.key == RKey.refresh sessionId))).filter
        (fun e => !(e.key == RKey.session sessionId)), []⟩) := rfl
  have hsnd := congrArg Prod.snd hrev
  have hfindR : ((revokeSession sessionId ⟨es, []⟩).2).find (RKey.refresh sessionId) =
      none := by
    rw [hsnd]
    show findEntry _ (RKey.refresh sessionId) = none
    rw [findEntry_filter_ne _ _ _ (fun hh => RKey.noConfusion hh)]
    exact findEntry_filter_self _ _
  have hfindS : ((revokeSession sessionId ⟨es, []⟩).2).find (RKey.session sessionId) =
      none := by
    rw [hsnd]
    exact findEntry_filter_self _ _
  have hframe : ∀ k, k ≠ RKey.refresh sessionId → k ≠ RKey.session sessionId →
      ((revokeSession sessionId ⟨es, []⟩).2).find k = (⟨es, []⟩ : Store).find k := by
    intro k hk1 hk2
    rw [hsnd]
    show findEntry _ k = findEntry es k
    rw [findEntry_filter_ne _ _ _ hk2, findEntry_filter_ne _ _ _ hk1]
  have hfaults : ((revokeSession sessionId ⟨es, []⟩).2).faults = [] := by
    rw [hsnd]
  refine ⟨congrArg Prod.fst hrev, hfindR, hfindS, hframe, ?_, ?_⟩
  · intro secret rt now hsid
    cases hres : (refreshAccessToken secret rt now ((revokeSession sessionId ⟨es, []⟩).2)).1
      with
    | none => rfl
    | some r =>
      obtain ⟨p, hp1, -, hr, -, -⟩ :=
        refresh_some_inv secret rt now ((revokeSession sessionId ⟨es, []⟩).2) r hres
      have hps : p.sessionId = sessionId :=
        hsid p ((verifyToken_some_iff _ _ _ _ _).mp hp1).2.2
      have hnone : ((verifyToken secret rt now
          ((revokeSession sessionId ⟨es, []⟩).2)).2).lookupLive
          (RKey.refresh p.sessionId) now = none := by
        apply lookupLive_none_of_find_none
        rw [verifyToken_find_frame _ _ _ _ _ (fun sid hh => RKey.noConfusion hh), hps]
        exact hfindR
      rw [hnone] at hr
      exact Option.noConfusion hr
  · intro secret tok now p hb hv
    apply (verifyToken_some_iff _ _ _ _ _).mpr
    refine ⟨?_, ?_, hv⟩
    · rw [hfaults]
      rfl
    · rw [hsnd]
      rw [lookupLive_eq_of_findEntry _ es _ [] _ _ (by
        rw [findEntry_filter_ne _ _ _ (fun hh => RKey.noConfusion hh),
          findEntry_filter_ne _ _ _ (fun hh => RKey.noConfusion hh)])]
      exact hb

/-- Witness for the amended C5 at concrete inputs: after revoking session s1
both its keys are gone and nothing is blacklisted, its refresh token can no
longer be used to refresh, yet both its tokens still pass verifyToken. -/
theorem revokeSession_spec_witness :
    (revokeSession "s1" wStore).1 = .ok () ∧
    ((revokeSession "s1" wStore).2).find (RKey.refresh "s1") = none ∧
    ((revokeSession "s1" wStore).2).find (RKey.session "s1") = none ∧
    ((revokeSession "s1" wStore).2).find (RKey.blacklist wAccessTok) =
      wStore.find (RKey.blacklist wAccessTok) ∧
    (refreshAccessToken wSecret wRefreshTok 2000 ((revokeSession "s1" wStore).2)).1 =
      none ∧
    (verifyToken wSecret wAccessTok 1500 ((revokeSession "s1" wStore).2)).1 =
      some wAccessPayload := by
  have h := revokeSession_spec "s1" wStore rfl
  refine ⟨h.1, h.2.1, h.2.2.1, ?_, ?_, ?_⟩
  · exact h.2.2.2.1 (RKey.blacklist wAccessTok) (fun hh => RKey.noConfusion hh)
      (fun hh => RKey.noConfusion hh)
  · apply h.2.2.2.2.1 wSecret wRefreshTok 2000
    intro p hp
    have h2 : (Except.ok wRefreshPayload : Except JwtError TokenPayload) = .ok p := hp
    rw [← Except.ok.inj h2]
    rfl
  · exact h.2.2.2.2.2 wSecret wAccessTok 1500 wAccessPayload (by decide) rfl

/-! ### Lemmas for the session scan and the revoke-all loop -/

theorem findEntry_eq_none_of_all_ne (es : List Entry) (k : RKey)
    (h : ∀ e ∈ es, e.key ≠ k) : findEntry es k = none := by
  unfold findEntry
  rw [List.find?_eq_none]
  intro e hme
  simpa using h e hme

theorem mem_scan_iff (es : List Entry) (fs : List Bool) (now : Nat) (sid : String)
    (hnd : (es.map (fun e => e.key)).Nodup) :
    sid ∈ es.filterMap (fun e => if e.liveAt now then sessionKeyId e.key else none) ↔
      (Store.lookupLive ⟨es, fs⟩ (RKey.session sid) now).isSome = true := by
  rw [List.mem_filterMap]
  constructor
  · rintro ⟨e, hme, hfe⟩
    by_cases hl : e.liveAt now
    · rw [if_pos hl] at hfe
      have hk : e.key = RKey.session sid := by
        cases hek : e.key with
        | refresh s => rw [hek] at hfe; exact Option.noConfusion hfe
        | blacklist t => rw [hek] at hfe; exact Option.noConfusion hfe
        | session s =>
          rw [hek] at hfe
          rw [Option.some.inj hfe]
      have hfind := findEntry_of_mem_nodup es e hnd hme
      rw [hk] at hfind
      unfold Store.lookupLive
      rw [show (⟨es, fs⟩ : Store).entries = es from rfl, hfind]
      show (if e.liveAt now = true then (some e.val : Option RVal) else none).isSome = true
      rw [if_pos hl]
      rfl
    · rw [if_neg hl] at hfe
      exact Option.noConfusion hfe
  · intro hsome
    unfold Store.lookupLive at hsome
    rw [show (⟨es, fs⟩ : Store).entries = es from rfl] at hsome
    cases hfe : findEntry es (RKey.session sid) with
    | none => rw [hfe] at hsome; exact Bool.noConfusion hsome
    | some e =>
      rw [hfe] at hsome
      by_cases hl : e.liveAt now
      · obtain ⟨hme, hk⟩ := findEntry_mem es (RKey.session sid) e hfe
        exact ⟨e, hme, by rw [if_pos hl, hk]; rfl⟩
      · have hsome2 : (if e.liveAt now = true then (some e.val : Option RVal)
            else none).isSome = true := hsome
        rw [if_neg hl] at hsome2
        exact Bool.noConfusion hsome2

theorem delOp_entries_subset (st : Store) (k : RKey) :
    ∀ e ∈ ((st.delOp k).2).entries, e ∈ st.entries := by
  rw [delOp_eq]
  by_cases hf : st.faults.headD false = true
  · rw [if_pos hf]
    exact fun e he => he
  · rw [if_neg hf]
    exact fun e he => List.mem_of_mem_filter he

theorem revokeSession_entries_subset (sid : String) (st : Store) :
    ∀ e ∈ ((revokeSession sid st).2).entries, e ∈ st.entries := by
  unfold revokeSession
  rcases h1 : st.delOp (RKey.refresh sid) with ⟨r1, st1⟩
  have hsub1 : ∀ e ∈ st1.entries, e ∈ st.entries := by
    have := delOp_entries_subset st (RKey.refresh sid)
    rw [h1] at this
    exact this
  cases r1 with
  | error e1 => exact hsub1
  | ok u1 =>
    show ∀ e ∈ ((match st1.delOp (RKey.session sid) with
      | (.error e2, st2) => ((.error e2 : Except Err Unit), st2)
      | (.ok _, st2) => (.ok (), st2)).2).entries, e ∈ st.entries
    rcases h2 : st1.delOp (RKey.session sid) with ⟨r2, st2⟩
    have hsub2 : ∀ e ∈ st2.entries, e ∈ st1.entries := by
      have := delOp_entries_subset st1 (RKey.session sid)
      rw [h2] at this
      exact this
    cases r2 with
    | error e2 => exact fun e he => hsub1 e (hsub2 e he)
    | ok u2 => exact fun e he => hsub1 e (hsub2 e he)

theorem revokeUserLoop_entries_subset (u : String) (now : Nat) (sids : List String) :
    ∀ (st : Store), ∀ e ∈ ((revokeUserLoop u now sids st).2).entries, e ∈ st.entries := by
  induction sids with
  | nil => exact fun st e he => he
  | cons sid rest ih =>
    intro st
    show ∀ e ∈ ((match st.getOp (RKey.session sid) now with
      | (.error er, st1) => ((.error er : Except Err Unit), st1)
      | (.ok none, st1) => revokeUserLoop u now rest st1
      | (.ok (some (.sessionVal sess)), st1) =>
        if sess.userId = u then
          match revokeSession sid st1 with
          | (.error er, st2) => (.error er, st2)
          | (.ok _, st2) => revokeUserLoop u now rest st2
        else revokeUserLoop u now rest st1
      | (.ok (some _), st1) => (.error .parseError, st1)).2).entries, e ∈ st.entries
    rcases hg : st.getOp (RKey.session sid) now with ⟨r, st1⟩
    have hst1 : st1 = ⟨st.entries, st.faults.tail⟩ := by
      have hh := getOp_snd st (RKey.session sid) now
      rw [hg] at hh
      exact hh
    have hsub1 : ∀ e ∈ st1.entries, e ∈ st.entries := by
      rw [hst1]
      exact fun e he => he
    cases r with
    | error er => exact hsub1
    | ok v =>
      cases v with
      | none => exact fun e he => hsub1 e (ih st1 e he)
      | some rv =>
        cases rv with
        | tokenVal t => exact hsub1
        | marker => exact hsub1
        | sessionVal sess =>
          show ∀ e ∈ ((if sess.userId = u then
              match revokeSession sid st1 with
              | (.error er, st2) => ((.error er : Except Err Unit), st2)
              | (.ok _, st2) => revokeUserLoop u now rest st2
            else revokeUserLoop u now rest st1).2).entries, e ∈ st.entries
          by_cases hu : sess.userId = u
          · rw [if_pos hu]
            rcases hrs : revokeSession sid st1 with ⟨r2, st2⟩
            have hsub2 : ∀ e ∈ st2.entries, e ∈ st1.entries := by
              have := revokeSession_entries_subset sid st1
              rw [hrs] at this
              exact this
            cases r2 with
            | error er => exact fun e he => hsub1 e (hsub2 e he)
            | ok u2 => exact fun e he => hsub1 e (hsub2 e (ih st2 e he))
          · rw [if_neg hu]
            exact fun e he => hsub1 e (ih st1 e he)

theorem revokeSession_nil (sid : String) (es : List Entry) :
    revokeSession sid ⟨es, []⟩ =
      (.ok (), ⟨(es.filter (fun e => !(e.key == RKey.refresh sid))).filter
        (fun e => !(e.key == RKey.session sid)), []⟩) := rfl

theorem lookupLive_session_val (es : List Entry) (fs : List Bool) (sid : String)
    (now : Nat) (v : RVal)
    (hwf : ∀ e ∈ es, ∀ s2, e.key = RKey.session s2 → ∃ sv, e.val = RVal.sessionVal sv)
    (h : Store.lookupLive ⟨es, fs⟩ (RKey.session sid) now = some v) :
    ∃ sv, v = RVal.sessionVal sv := by
  unfold Store.lookupLive at h
  rw [show (⟨es, fs⟩ : Store).entries = es from rfl] at h
  cases hfe : findEntry es (RKey.session sid) with
  | none =>
    rw [hfe] at h
    exact Option.noConfusion h
  | some e =>
    rw [hfe] at h
    have h2 : (if e.liveAt now = true then (some e.val : Option RVal) else none) = some v := h
    by_cases hl : e.liveAt now
    · rw [if_pos hl] at h2
      obtain ⟨hme, hk⟩ := findEntry_mem es _ e hfe
      obtain ⟨sv, hsv⟩ := hwf e hme sid hk
      exact ⟨sv, by rw [← Option.some.inj h2, hsv]⟩
    · rw [if_neg hl] at h2
      exact Option.noConfusion h2

theorem gus_loop_eq (u : String) (now : Nat) (sids : List String) (es : List Entry)
    (hwf : ∀ sid ∈ sids, ∀ v,
      Store.lookupLive ⟨es, []⟩ (RKey.session sid) now = some v →
      ∃ s, v = RVal.sessionVal s) :
    getUserSessionsLoop u now sids ⟨es, []⟩ =
      (.ok (sids.filterMap (fun sid =>
        match Store.lookupLive ⟨es, []⟩ (RKey.session sid) now with
        | some (RVal.sessionVal sess) =>
          if sess.userId = u then
            some (⟨sid, sess.createdAt, sess.lastUsedAt⟩ : SessionInfo)
          else none
        | _ => none)), ⟨es, []⟩) := by
  induction sids with
  | nil => rfl
  | cons sid rest ih =>
    have ihr := ih (fun s2 hm => hwf s2 (List.mem_cons_of_mem _ hm))
    show (match Store.getOp ⟨es, []⟩ (RKey.session sid) now with
      | (.error e, st1) => ((.error e : Except Err (List SessionInfo)), st1)
      | (.ok none, st1) => getUserSessionsLoop u now rest st1
      | (.ok (some (.sessionVal sess)), st1) =>
        if sess.userId = u then
          match getUserSessionsLoop u now rest st1 with
          | (.ok l, st2) => (.ok (⟨sid, sess.createdAt, sess.lastUsedAt⟩ :: l), st2)
          | (.error e, st2) => (.error e, st2)
        else getUserSessionsLoop u now rest st1
      | (.ok (some _), st1) => (.error .parseError, st1)) = _
    rw [getOp_nil, List.filterMap_cons]
    cases hll : Store.lookupLive ⟨es, []⟩ (RKey.session sid) now with
    | none => exact ihr
    | some v =>
      obtain ⟨sess, rfl⟩ := hwf sid (List.mem_cons_self _ _) v hll
      show (if sess.userId = u then
          match getUserSessionsLoop u now rest ⟨es, []⟩ with
          | (.ok l, st2) =>
            ((.ok (⟨sid, sess.createdAt, sess.lastUsedAt⟩ :: l) :
              Except Err (List SessionInfo)), st2)
          | (.error e, st2) => (.error e, st2)
        else getUserSessionsLoop u now rest ⟨es, []⟩) = _
      rw [ihr]
      by_cases hu : sess.userId = u
      · simp [hu]
      · simp [hu]

theorem revokeUserLoop_nil_faults (u : String) (now : Nat) (sids : List String) :
    ∀ (es : List Entry), ((revokeUserLoop u now sids ⟨es, []⟩).2).faults = [] := by
  induction sids with
  | nil =>
    intro es
    rfl
  | cons sid' rest ih =>
    intro es
    show ((match Store.getOp ⟨es, []⟩ (RKey.session sid') now with
      | (.error er, st1) => ((.error er : Except Err Unit), st1)
      | (.ok none, st1) => revokeUserLoop u now rest st1
      | (.ok (some (.sessionVal sess)), st1) =>
        if sess.userId = u then
          match revokeSession sid' st1 with
          | (.error er, st2) => (.error er, st2)
          | (.ok _, st2) => revokeUserLoop u now rest st2
        else revokeUserLoop u now rest st1
      | (.ok (some _), st1) => (.error .parseError, st1)).2).faults = []
    rw [getOp_nil]
    cases hll : Store.lookupLive ⟨es, []⟩ (RKey.session sid') now with
    | none => exact ih es
    | some v =>
      cases v with
      | tokenVal t => rfl
      | marker => rfl
      | sessionVal s1 =>
        show ((if s1.userId = u then
            match revokeSession sid' ⟨es, []⟩ with
            | (.error er, st2) => ((.error er : Except Err Unit), st2)
            | (.ok _, st2) => revokeUserLoop u now rest st2
          else revokeUserLoop u now rest ⟨es, []⟩).2).faults = []
        by_cases hu1 : s1.userId = u
        · rw [if_pos hu1, revokeSession_nil]
          exact ih _
        · rw [if_neg hu1]
          exact ih es

theorem revokeUserLoop_kill (u : String) (now : Nat) (sids : List String) :
    ∀ (es : List Entry) (sid : String) (sess : Session),
      (∀ e ∈ es, ∀ s2, e.key = RKey.session s2 → ∃ sv, e.val = RVal.sessionVal sv) →
      sid ∈ sids →
      Store.lookupLive ⟨es, []⟩ (RKey.session sid) now = some (.sessionVal sess) →
      sess.userId = u →
      findEntry ((revokeUserLoop u now sids ⟨es, []⟩).2).entries (RKey.session sid) =
        none := by
  induction sids with
  | nil =>
    intro es sid sess _ hmem
    cases hmem
  | cons sid' rest ih =>
    intro es sid sess hwf hmem hll hu
    show findEntry ((match Store.getOp ⟨es, []⟩ (RKey.session sid') now with
      | (.error er, st1) => ((.error er : Except Err Unit), st1)
      | (.ok none, st1) => revokeUserLoop u now rest st1
      | (.ok (some (.sessionVal s1)), st1) =>
        if s1.userId = u then
          match revokeSession sid' st1 with
          | (.error er, st2) => (.error er, st2)
          | (.ok _, st2) => revokeUserLoop u now rest st2
        else revokeUserLoop u now rest st1
      | (.ok (some _), st1) => (.error .parseError, st1)).2).entries
      (RKey.session sid) = none
    rw [getOp_nil]
    by_cases hEq : sid' = sid
    · rw [← hEq] at hll ⊢
      rw [hll]
      show findEntry ((if sess.userId = u then
          match revokeSession sid' ⟨es, []⟩ with
          | (.error er, st2) => ((.error er : Except Err Unit), st2)
          | (.ok _, st2) => revokeUserLoop u now rest st2
        else revokeUserLoop u now rest ⟨es, []⟩).2).entries (RKey.session sid') = none
      rw [if_pos hu, revokeSession_nil]
      show findEntry ((revokeUserLoop u now rest
        ⟨(es.filter (fun e => !(e.key == RKey.refresh sid'))).filter
          (fun e => !(e.key == RKey.session sid')), []⟩).2).entries
        (RKey.session sid') = none
      apply findEntry_eq_none_of_all_ne
      intro e he hk
      have he2 := revokeUserLoop_entries_subset u now rest _ e he
      have hpred := List.of_mem_filter he2
      rw [hk] at hpred
      simp at hpred
    · have hmem' : sid ∈ rest := by
        rcases List.mem_cons.mp hmem with h | h
        · exact absurd h.symm hEq
        · exact h
      cases hll' : Store.lookupLive ⟨es, []⟩ (RKey.session sid') now with
      | none => exact ih es sid sess hwf hmem' hll hu
      | some v =>
        obtain ⟨s1, rfl⟩ := lookupLive_session_val es [] sid' now v hwf hll'
        show findEntry ((if s1.userId = u then
            match revokeSession sid' ⟨es, []⟩ with
            | (.error er, st2) => ((.error er : Except Err Unit), st2)
            | (.ok _, st2) => revokeUserLoop u now rest st2
          else revokeUserLoop u now rest ⟨es, []⟩).2).entries (RKey.session sid) = none
        by_cases hu1 : s1.userId = u
        · rw [if_pos hu1, revokeSession_nil]
          show findEntry ((revokeUserLoop u now rest
            ⟨(es.filter (fun e => !(e.key == RKey.refresh sid'))).filter
              (fun e => !(e.key == RKey.session sid')), []⟩).2).entries
            (RKey.session sid) = none
          apply ih _ sid sess ?_ hmem' ?_ hu
          · intro e he s2 hk
            exact hwf e (List.mem_of_mem_filter (List.mem_of_mem_filter he)) s2 hk
          · have hfp : findEntry
                ((es.filter (fun e => !(e.key == RKey.refresh sid'))).filter
                  (fun e => !(e.key == RKey.session sid'))) (RKey.session sid) =
                findEntry es (RKey.session sid) := by
              rw [findEntry_filter_ne _ _ _ (fun hh => hEq (RKey.session.inj hh).symm),
                  findEntry_filter_ne _ _ _ (fun hh => RKey.noConfusion hh)]
            rw [lookupLive_eq_of_findEntry _ es _ [] _ _ hfp]
            exact hll
        · rw [if_neg hu1]
          exact ih es sid sess hwf hmem' hll hu

theorem lookupLive_inv (es : List Entry) (fs : List Bool) (k : RKey) (now : Nat) (v : RVal)
    (h : Store.lookupLive ⟨es, fs⟩ k now = some v) :
    ∃ e, findEntry es k = some e ∧ e.liveAt now = true ∧ e.val = v := by
  unfold Store.lookupLive at h
  rw [show (⟨es, fs⟩ : Store).entries = es from rfl] at h
  cases hfe : findEntry es k with
  | none =>
    rw [hfe] at h
    exact Option.noConfusion h
  | some e =>
    rw [hfe] at h
    have h2 : (if e.liveAt now = true then (some e.val : Option RVal) else none) = some v := h
    by_cases hl : e.liveAt now
    · rw [if_pos hl] at h2
      exact ⟨e, rfl, hl, Option.some.inj h2⟩
    · rw [if_neg hl] at h2
      exact Option.noConfusion h2

theorem getUserSessions_eq (u : String) (now : Nat) (es : List Entry)
    (hwf : ∀ e ∈ es, ∀ sid, e.key = RKey.session sid → ∃ s, e.val = RVal.sessionVal s) :
    (getUserSessions u now ⟨es, []⟩).1 =
      (es.filterMap (fun e => if e.liveAt now then sessionKeyId e.key else none)).filterMap
        (fun sid => match Store.lookupLive ⟨es, []⟩ (RKey.session sid) now with
          | some (RVal.sessionVal sess) =>
            if sess.userId = u then
              some (⟨sid, sess.createdAt, sess.lastUsedAt⟩ : SessionInfo)
            else none
          | _ => none) := by
  unfold getUserSessions
  rw [scanSessionIds_nil]
  show (match getUserSessionsLoop u now
      (es.filterMap (fun (e : Entry) => if e.liveAt now then sessionKeyId e.key else none))
      ⟨es, []⟩ with
    | (.error _, st2) => (([] : List SessionInfo), st2)
    | (.ok l, st2) => (l, st2)).1 = _
  rw [gus_loop_eq u now _ es
    (fun sid _ v h => lookupLive_session_val es [] sid now v hwf h)]

/-! ### Claim C8 -/

/-- C8: getUserSessions(userId) returns exactly the live sessions whose
stored metadata carries that userId (membership characterization excluding
other users' sessions and evicted rows), and after revokeAllUserTokens —
which scans all session rows and revokes every matching session —
getUserSessions for that user returns the empty list.  Hypotheses: a
fault-free store whose entries have distinct keys and whose session rows
hold session metadata. -/
theorem getUserSessions_spec (userId : String) (now : Nat) (st : Store)
    (hf : st.faults = [])
    (hnd : (st.entries.map (fun e => e.key)).Nodup)
    (hwf : ∀ e ∈ st.entries, ∀ sid, e.key = RKey.session sid →
      ∃ s, e.val = RVal.sessionVal s) :
    (∀ info : SessionInfo, info ∈ (getUserSessions userId now st).1 ↔
      ∃ sess : Session,
        st.lookupLive (RKey.session info.sessionId) now = some (.sessionVal sess) ∧
        sess.userId = userId ∧ sess.createdAt = info.createdAt ∧
        sess.lastUsedAt = info.lastUsedAt)
    ∧ (getUserSessions userId now ((revokeAllUserTokens userId now st).2)).1 = [] := by
  obtain ⟨es, fs⟩ := st
  subst hf
  constructor
  · intro info
    rw [getUserSessions_eq userId now es hwf, List.mem_filterMap]
    constructor
    · rintro ⟨sid, hsid, hfeq⟩
      cases hls : Store.lookupLive ⟨es, []⟩ (RKey.session sid) now with
      | none =>
        rw [hls] at hfeq
        exact Option.noConfusion hfeq
      | some v =>
        rw [hls] at hfeq
        obtain ⟨sess, rfl⟩ := lookupLive_session_val es [] sid now v hwf hls
        have hfeq2 : (if sess.userId = userId then
            some (⟨sid, sess.createdAt, sess.lastUsedAt⟩ : SessionInfo) else none) =
            some info := hfeq
        by_cases hu : sess.userId = userId
        · rw [if_pos hu] at hfeq2
          have hinfo := Option.some.inj hfeq2
          refine ⟨sess, ?_, hu, ?_, ?_⟩
          · rw [← hinfo]
            exact hls
          · rw [← hinfo]
          · rw [← hinfo]
        · rw [if_neg hu] at hfeq2
          exact Option.noConfusion hfeq2
    · rintro ⟨sess, hls, hu, hc, hl2⟩
      refine ⟨info.sessionId, ?_, ?_⟩
      · rw [mem_scan_iff es [] now info.sessionId hnd, hls]
        rfl
      · rw [hls]
        show (if sess.userId = userId then
            some (⟨info.sessionId, sess.createdAt, sess.lastUsedAt⟩ : SessionInfo)
          else none) = some info
        rw [if_pos hu, hc, hl2]
  · have hrall : (revokeAllUserTokens userId now ⟨es, []⟩).2 =
        (revokeUserLoop userId now
          (es.filterMap (fun e => if e.liveAt now then sessionKeyId e.key else none))
          ⟨es, []⟩).2 := by
      unfold revokeAllUserTokens
      rw [scanSessionIds_nil]
    rw [hrall]
    have heta : (revokeUserLoop userId now
        (es.filterMap (fun e => if e.liveAt now then sessionKeyId e.key else none))
        ⟨es, []⟩).2 =
        ⟨((revokeUserLoop userId now
          (es.filterMap (fun e => if e.liveAt now then sessionKeyId e.key else none))
          ⟨es, []⟩).2).entries, []⟩ := by
      have hnf := revokeUserLoop_nil_faults userId now
        (es.filterMap (fun e => if e.liveAt now then sessionKeyId e.key else none)) es
      rcases hr : (revokeUserLoop userId now
        (es.filterMap (fun e => if e.liveAt now then sessionKeyId e.key else none))
        ⟨es, []⟩).2 with ⟨ents, fls⟩
      rw [hr] at hnf
      have hnf2 : fls = [] := hnf
      subst hnf2
      rw [hr]
    rw [heta]
    have hwf2 : ∀ e ∈ ((revokeUserLoop userId now
        (es.filterMap (fun e => if e.liveAt now then sessionKeyId e.key else none))
        ⟨es, []⟩).2).entries, ∀ sid, e.key = RKey.session sid →
        ∃ s, e.val = RVal.sessionVal s :=
      fun e he sid hk =>
        hwf e (revokeUserLoop_entries_subset userId now _ ⟨es, []⟩ e he) sid hk
    rw [getUserSessions_eq userId now _ hwf2]
    rw [List.filterMap_eq_nil_iff]
    intro sid hsid
    cases hls : Store.lookupLive
        ⟨((revokeUserLoop userId now
          (es.filterMap (fun e => if e.liveAt now then sessionKeyId e.key else none))
          ⟨es, []⟩).2).entries, []⟩ (RKey.session sid) now with
    | none => rfl
    | some v =>
      obtain ⟨sess, rfl⟩ := lookupLive_session_val _ [] sid now v hwf2 hls
      show (if sess.userId = userId then
          some (⟨sid, sess.createdAt, sess.lastUsedAt⟩ : SessionInfo) else none) = none
      by_cases hu : sess.userId = userId
      · exfalso
        obtain ⟨e, hfe, hlv, hval⟩ := lookupLive_inv _ [] (RKey.session sid) now _ hls
        obtain ⟨hme', hk⟩ := findEntry_mem _ _ _ hfe
        have hme : e ∈ es :=
          revokeUserLoop_entries_subset userId now _ ⟨es, []⟩ e hme'
        have hsidm : sid ∈ es.filterMap
            (fun e2 => if e2.liveAt now then sessionKeyId e2.key else none) :=
          List.mem_filterMap.mpr ⟨e, hme, by rw [if_pos hlv, hk]; rfl⟩
        have hfe0 : findEntry es (RKey.session sid) = some e := by
          have hh := findEntry_of_mem_nodup es e hnd hme
          rw [hk] at hh
          exact hh
        have hll0 : Store.lookupLive ⟨es, []⟩ (RKey.session sid) now =
            some (.sessionVal sess) := by
          unfold Store.lookupLive
          rw [show (⟨es, []⟩ : Store).entries = es from rfl, hfe0]
          show (if e.liveAt now = true then (some e.val : Option RVal) else none) =
            some (.sessionVal sess)
          rw [if_pos hlv, hval]
        have hkill := revokeUserLoop_kill userId now
          (es.filterMap (fun e2 => if e2.liveAt now then sessionKeyId e2.key else none))
          es sid sess hwf hsidm hll0 hu
        rw [hkill] at hfe
        exact Option.noConfusion hfe
      · rw [if_neg hu]

/-- Witness for C8 at concrete inputs: in the store holding u1's session s1,
getUserSessions("u1") contains s1's row, and after revokeAllUserTokens("u1")
the listing is empty. -/
theorem getUserSessions_spec_witness :
    (⟨"s1", 1000, 1000⟩ : SessionInfo) ∈ (getUserSessions "u1" 2000 wStore).1 ∧
    (getUserSessions "u1" 2000 ((revokeAllUserTokens "u1" 2000 wStore).2)).1 = [] := by
  have hwf : ∀ e ∈ wStore.entries, ∀ sid, e.key = RKey.session sid →
      ∃ s, e.val = RVal.sessionVal s := by
    intro e he sid hk
    have he2 : e ∈ [(⟨RKey.session "s1",
        RVal.sessionVal ⟨"u1", "a@x.com", 1000, 1000⟩, some 605800⟩ : Entry),
      ⟨RKey.refresh "s1", RVal.tokenVal wRefreshTok, some 605800⟩] := he
    rcases List.mem_cons.mp he2 with h1 | h2
    · subst h1
      exact ⟨⟨"u1", "a@x.com", 1000, 1000⟩, rfl⟩
    · rcases List.mem_cons.mp h2 with h3 | h4
      · subst h3
        exact absurd hk (fun hh => RKey.noConfusion hh)
      · cases h4
  have h := getUserSessions_spec "u1" 2000 wStore rfl (by decide) hwf
  constructor
  · exact (h.1 ⟨"s1", 1000, 1000⟩).mpr
      ⟨⟨"u1", "a@x.com", 1000, 1000⟩, by decide, rfl, rfl, rfl⟩
  · exact h.2
